import Mathlib

/-!
dottask: the cron task (`crontask.go`).

A shallow embedding of `CronTask` and of the functions of `crontask.go`:
`GetConfig`, `Reset`, `Start`, `RunOnce`, `NewCronTask`, `startCronTask` and
`doCronTask`.

The task is a mutable object shared with goroutines; here every function takes
the whole observable world (`World`: the task, the tickers created so far, the
live loop goroutines, the latest execution context, the log of effects) and
returns the world after the call.

Collaborators that live outside `crontask.go` are parameters:
`parseExpress` (text of one field and its kind to an `*ExpressSet`) and
`IsMatch` (`(*ExpressSet).IsMatch(time.Time)`).
-/

namespace Crontask

/-! ## Data model -/

/-- An `error` value, represented by its message. -/
abbrev GoError := String

/-- A `time.Time`, represented as nanoseconds since the epoch. -/
abbrev Time := Nat

/-- The values `TaskState_Init`, `TaskState_Run`, `TaskState_Stop` of `task.State`. -/
inductive TaskState where
  | Init
  | Run
  | Stop
  deriving DecidableEq, Repr

/-- The values of `task.TaskType`; `crontask.go` only names `TaskType_Cron`. -/
inductive TaskType where
  | Cron
  | Loop
  | Queue
  deriving DecidableEq, Repr

/-- The second argument of `parseExpress`: `ExpressType_Second` ... `ExpressType_WeekDay`. -/
inductive ExpressType where
  | Second
  | Minute
  | Hour
  | Day
  | Month
  | WeekDay
  deriving DecidableEq, Repr

/-- The `*TaskContext` handed to the handler and to the hooks. `TimeoutCancel` is
`true` when the Go field `TimeoutCancel` is non-nil. -/
structure TaskContext (D : Type) where
  TaskID : String
  TaskData : Option D
  IsEnd : Bool
  Error : Option GoError
  TimeoutCancel : Bool

/-- What a call `task.handler(taskCtx)` does: it returns an `error` (possibly nil)
or it panics with a value, represented by its `%v` rendering. -/
inductive HandlerResult where
  | returned (err : Option GoError)
  | panicked (v : String)
  deriving DecidableEq, Repr

/-- The type `TaskHandle`: `func(*TaskContext) error`. -/
abbrev TaskHandle (D : Type) := TaskContext D → HandlerResult

/-- The fields of `*TaskService` that `crontask.go` reads. Each hook is `true` when
the Go field is non-nil. Hooks are collaborators outside this file: a call of a hook
is recorded as an effect, what the hook itself does is not modelled. -/
structure TaskService where
  OnBeforeHandler : Bool
  OnEndHandler : Bool
  ExceptionHandler : Bool
  deriving DecidableEq, Repr

/-- The two counters behind `task.CounterInfo()`. -/
structure CounterInfo where
  RunCounter : Nat
  ErrorCounter : Nat
  deriving DecidableEq, Repr

/-- The struct `TaskConfig` as `GetConfig` builds it and `Reset` reads it.
`Handler` and `TaskData` are `none` when nil. -/
structure TaskConfig (D : Type) where
  TaskID : String
  TaskType : TaskType
  IsRun : Bool
  Handler : Option (TaskHandle D)
  DueTime : Int
  Interval : Int
  Express : String
  TaskData : Option D

/-- The struct `CronTask`: the fields of the embedded `TaskInfo` that
`crontask.go` uses, then the fields declared in `crontask.go` itself.
`S` is the type of `*ExpressSet` values, `D` the type of task data.
`TimeTicker` is the index of the task's ticker among the tickers of the world. -/
structure CronTask (S D : Type) where
  taskID : String
  TaskType : TaskType
  IsRun : Bool
  handler : Option (TaskHandle D)
  DueTime : Int
  TaskData : Option D
  State : TaskState
  Timeout : Int
  TimeTicker : Option Nat
  taskService : Option TaskService
  counters : CounterInfo
  RawExpress : String
  time_WeekDay : S
  time_Month : S
  time_Day : S
  time_Hour : S
  time_Minute : S
  time_Second : S

/-- The observable effects of the code, in the order they happen. -/
inductive Event where
  | Debug (msg : String)
  | StopCalled
  | StartCalled
  | tickerStop (ticker : Nat)
  | launch (ticker : Nat)
  | RunCounterInc
  | ErrorCounterInc
  | OnBeforeHandler
  | handlerCall
  | setError (err : GoError)
  | ExceptionHandler (err : GoError)
  | OnEndHandler
  | TimeoutCancel
  | putTaskContext
  | doneChanSend
  deriving DecidableEq, Repr

/-- The task together with the runtime around it.
* `tickers`: one entry per `time.NewTicker` call so far, `true` while that ticker runs;
* `loops`: one entry per live goroutine launched by `startCronTask`, holding the
  ticker whose channel the goroutine's `select` waits on;
* `ctx`: the execution context of the latest dispatch;
* `trace`: the effects so far;
* `crashed`: a panic left a goroutine unrecovered, which ends the process. -/
structure World (S D : Type) where
  task : CronTask S D
  tickers : List Bool
  loops : List Nat
  ctx : Option (TaskContext D)
  trace : List Event
  crashed : Bool

variable {S D : Type}

/-- Appends one effect to the log. -/
def World.emit (w : World S D) (e : Event) : World S D :=
  { w with trace := w.trace ++ [e] }

/-- The call `task.taskService.Logger().Debug(...)` (also `debugExpress`).
Modelled from the spec: the logger is not in `crontask.go`; the spec describes it
as a "best-effort diagnostic sink; never affects control flow". -/
def World.logDebug (w : World S D) (msg : String) : World S D :=
  w.emit (Event.Debug msg)

/-- The effects a call appended to the log of `w`, given the world `w2` after it. -/
def newEvents (w w2 : World S D) : List Event :=
  w2.trace.drop w.trace.length

/-! ## `strings.Split` and `strings.Fields` -/

/-- Cuts a list of characters at every occurrence of `sep`: there is one more part
than there are occurrences, and parts may be empty. -/
def splitChars (sep : Char) : List Char → List (List Char)
  | [] => [[]]
  | c :: cs =>
    if c = sep then [] :: splitChars sep cs
    else
      match splitChars sep cs with
      | [] => [[c]]
      | f :: fs => (c :: f) :: fs

/-- The call `strings.Split(s, " ")` of the Go standard library. -/
def stringsSplit (s : String) : List String :=
  (splitChars ' ' s.toList).map String.mk

/-- The i-th element `expresslist[i]` of a split expression. -/
def field (l : List String) (i : Nat) : String :=
  l.getD i ""

/-- ASCII white space, as `unicode.IsSpace` sees it. -/
def isSpace (c : Char) : Bool :=
  c = ' ' || c = '\t' || c = '\n' || c = '\r' || c = Char.ofNat 11 || c = Char.ofNat 12

/-- White-space-separated fields of a list of characters: the maximal runs of
characters that are not white space. `cur` is the run being read, reversed. -/
def fieldsChars : List Char → List Char → List (List Char)
  | [], cur => if cur = [] then [] else [cur.reverse]
  | c :: cs, cur =>
    if isSpace c then
      (if cur = [] then fieldsChars cs [] else cur.reverse :: fieldsChars cs [])
    else fieldsChars cs (c :: cur)

/-- The reading of "whitespace-separated fields" in the specification: what
`strings.Fields` of the Go standard library returns. -/
def whitespaceFields (s : String) : List String :=
  (fieldsChars s.toList []).map String.mk

/-! ## Methods of the embedded `TaskInfo` used by `crontask.go` -/

/-- The call `task.CounterInfo().RunCounter.Inc(1)`. -/
def incRunCounter (w : World S D) : World S D :=
  { w with
    task := { w.task with
      counters := { w.task.counters with RunCounter := w.task.counters.RunCounter + 1 } },
    trace := w.trace ++ [Event.RunCounterInc] }

/-- The call `task.CounterInfo().ErrorCounter.Inc(1)`. -/
def incErrorCounter (w : World S D) : World S D :=
  { w with
    task := { w.task with
      counters := { w.task.counters with ErrorCounter := w.task.counters.ErrorCounter + 1 } },
    trace := w.trace ++ [Event.ErrorCounterInc] }

/-- Modelled from the spec: `getTaskContext` is a method of `TaskInfo`, outside
`crontask.go`. The spec: "construct a fresh Execution Context carrying `TaskData`
and, if `Timeout > 0`, a cancellation handle that auto-fires after `Timeout`
elapses". -/
def getTaskContext (t : CronTask S D) : TaskContext D :=
  { TaskID := t.taskID, TaskData := t.TaskData, IsEnd := false, Error := none,
    TimeoutCancel := decide (t.Timeout > 0) }

/-- Modelled from the spec: `putTaskContext` is a method of `TaskInfo`, outside
`crontask.go`. The spec: "Context state is marked concluded before it is released
back for disposal/reuse". -/
def putTaskContext (w : World S D) : World S D :=
  { w with
    ctx := w.ctx.map (fun c => { c with IsEnd := true }),
    trace := w.trace ++ [Event.putTaskContext] }

/-- Modelled from the spec: `Stop` is a method of `TaskInfo`, outside `crontask.go`.
The spec: "`Stop()`: terminates the active Polling Loop (stop its timer, let the
loop activity exit) and transitions to `Stop`. Idempotent when already stopped." -/
def Stop (w : World S D) : World S D :=
  let w1 := w.emit Event.StopCalled
  match w1.task.State with
  | TaskState.Run =>
    match w1.task.TimeTicker with
    | some k =>
      { w1 with
        task := { w1.task with State := TaskState.Stop },
        tickers := w1.tickers.set k false,
        loops := [],
        trace := w1.trace ++ [Event.tickerStop k] }
    | none => { w1 with task := { w1.task with State := TaskState.Stop }, loops := [] }
  | _ => { w1 with task := { w1.task with State := TaskState.Stop } }

/-- Modelled from the spec: the owning service, which creates and indexes tasks, is
an external collaborator; `SetTaskService` (a method of `TaskInfo`, outside
`crontask.go`) stores the reference to it that the task later reads as
`task.taskService`. -/
def SetTaskService (w : World S D) (svc : TaskService) : World S D :=
  { w with task := { w.task with taskService := some svc } }

/-! ## `crontask.go` -/

/-- `GetConfig` (lines 24-36). -/
def GetConfig (t : CronTask S D) : TaskConfig D :=
  { TaskID := t.taskID
    TaskType := t.TaskType
    IsRun := t.IsRun
    Handler := t.handler
    DueTime := t.DueTime
    Interval := 0
    Express := t.RawExpress
    TaskData := t.TaskData }

/-- `startCronTask` (lines 136-151): a new ticker is created and stored in
`task.TimeTicker`, and a goroutine is launched that handles the ticks of
`task.TimeTicker`. The old ticker, if any, is not touched. -/
def startCronTask (w : World S D) : World S D :=
  let k := w.tickers.length
  { w with
    task := { w.task with TimeTicker := some k },
    tickers := w.tickers ++ [true],
    loops := w.loops ++ [k],
    trace := w.trace ++ [Event.launch k] }

/-- `Start` (lines 87-100). -/
def Start (w : World S D) : World S D :=
  let w1 := w.emit Event.StartCalled
  if !w1.task.IsRun then w1
  else if w1.task.State = TaskState.Init ∨ w1.task.State = TaskState.Stop then
    startCronTask { w1 with task := { w1.task with State := TaskState.Run } }
  else w1

/-- The six assignments of lines 69-80 (and 125-130): each predicate is parsed
from one element of the split expression. -/
def setPredicates (parseExpress : String → ExpressType → S) (expresslist : List String)
    (t : CronTask S D) : CronTask S D :=
  { t with
    time_WeekDay := parseExpress (field expresslist 5) ExpressType.WeekDay
    time_Month := parseExpress (field expresslist 4) ExpressType.Month
    time_Day := parseExpress (field expresslist 3) ExpressType.Day
    time_Hour := parseExpress (field expresslist 2) ExpressType.Hour
    time_Minute := parseExpress (field expresslist 1) ExpressType.Minute
    time_Second := parseExpress (field expresslist 0) ExpressType.Second }

/-- The assignments of `Reset` between its calls of `Stop` and `Start`
(lines 59-81): the configuration is copied into the task and, for a cron task, the
six predicates are parsed anew, each followed by a call of `debugExpress`. -/
def reloadConf (parseExpress : String → ExpressType → S) (expresslist : List String)
    (conf : TaskConfig D) (w : World S D) : World S D :=
  let t1 := { w.task with IsRun := conf.IsRun }
  let t2 := match conf.TaskData with
    | some d => { t1 with TaskData := some d }
    | none => t1
  let t3 := match conf.Handler with
    | some h => { t2 with handler := some h }
    | none => t2
  let t4 := { t3 with DueTime := conf.DueTime }
  let t5 := { t4 with RawExpress := conf.Express }
  if t5.TaskType = TaskType.Cron then
    { w with
      task := setPredicates parseExpress expresslist t5,
      trace := w.trace ++ List.replicate 6 (Event.Debug "debugExpress") }
  else { w with task := t5 }

/-- `Reset` (lines 42-85). Returns the world after the call and the returned
`error` (`none` for nil). -/
def Reset (parseExpress : String → ExpressType → S) (w : World S D) (conf : TaskConfig D) :
    World S D × Option GoError :=
  let expresslist := stringsSplit conf.Express
  if conf.Express = "" then
    (w.logDebug "TaskInfo:Reset error express is empty", some "express is empty")
  else if expresslist.length ≠ 6 then
    (w.logDebug "TaskInfo:Reset error express is wrong format => not 6 parts",
      some "express is wrong format => not 6 parts")
  else
    let w1 := Stop w
    let w2 := reloadConf parseExpress expresslist conf w1
    let w3 := Start w2
    (w3.logDebug "TaskInfo:Reset success", none)

/-- `NewCronTask` (lines 111-134): the returned task (`none` for nil) and the
returned `error` (`none` for nil). -/
def NewCronTask (parseExpress : String → ExpressType → S) (taskID : String) (isRun : Bool)
    (express : String) (handler : Option (TaskHandle D)) (taskData : Option D) :
    Option (CronTask S D) × Option GoError :=
  let expressList := stringsSplit express
  if expressList.length ≠ 6 then
    (none, some "express is wrong format => not 6 parts")
  else
    (some
      { taskID := taskID
        TaskType := TaskType.Cron
        IsRun := isRun
        handler := handler
        DueTime := 0
        TaskData := taskData
        State := TaskState.Init
        Timeout := 0
        TimeTicker := none
        taskService := none
        counters := { RunCounter := 0, ErrorCounter := 0 }
        RawExpress := express
        time_WeekDay := parseExpress (field expressList 5) ExpressType.WeekDay
        time_Month := parseExpress (field expressList 4) ExpressType.Month
        time_Day := parseExpress (field expressList 3) ExpressType.Day
        time_Hour := parseExpress (field expressList 2) ExpressType.Hour
        time_Minute := parseExpress (field expressList 1) ExpressType.Minute
        time_Second := parseExpress (field expressList 0) ExpressType.Second },
     none)

/-- The world right after `NewCronTask` returned `t`: no ticker, no goroutine, no
effect yet. -/
def World.ofTask (t : CronTask S D) : World S D :=
  { task := t, tickers := [], loops := [], ctx := none, trace := [], crashed := false }

/-- Which signal the `select` of lines 211-216 receives first when `Timeout > 0`:
the completion signal on `doneChan`, or the expiry of the timeout context while the
call of the handler is still in progress. -/
inductive Race where
  | doneFirst
  | timeoutFirst
  deriving DecidableEq, Repr

/-- The condition of lines 179-184: all six predicates match `now`. -/
def allMatch (IsMatch : S → Time → Bool) (t : CronTask S D) (now : Time) : Bool :=
  IsMatch t.time_WeekDay now &&
  IsMatch t.time_Month now &&
  IsMatch t.time_Day now &&
  IsMatch t.time_Hour now &&
  IsMatch t.time_Minute now &&
  IsMatch t.time_Second now

/-- The guard `task.taskService != nil && task.taskService.<hook> != nil`. -/
def hookSet (t : CronTask S D) (hook : TaskService → Bool) : Bool :=
  match t.taskService with
  | some svc => hook svc
  | none => false

/-- The call `task.handler(taskCtx)`; calling a nil function value panics. -/
def callHandler (t : CronTask S D) (taskCtx : TaskContext D) : HandlerResult :=
  match t.handler with
  | some h => h taskCtx
  | none => HandlerResult.panicked "invalid memory address or nil pointer dereference"

/-- The closure `handler` from its start to the call of the task's handler
(lines 178-195). The second component is `none` when the predicates do not match,
and otherwise what line 192-195 leaves: the result of the handler, or a nil error
when the context is concluded and the handler is skipped. -/
def handlerHead (IsMatch : S → Time → Bool) (w : World S D) (taskCtx : TaskContext D)
    (now : Time) : World S D × Option HandlerResult :=
  if allMatch IsMatch w.task now then
    let w1 := incRunCounter w
    let w2 := if hookSet w1.task (fun svc => svc.OnBeforeHandler) then
        w1.emit Event.OnBeforeHandler else w1
    if !taskCtx.IsEnd then
      (w2.emit Event.handlerCall, some (callHandler w2.task taskCtx))
    else (w2, some (HandlerResult.returned none))
  else (w, none)

/-- The closure `handler` after the task's handler returned `err` (lines 196-205). -/
def handlerTail (w : World S D) (err : Option GoError) : World S D :=
  let w1 := match err with
    | some e =>
      let a : World S D :=
        { w with
          ctx := w.ctx.map (fun c => { c with Error := some e }),
          trace := w.trace ++ [Event.setError e] }
      let b := incErrorCounter a
      if hookSet b.task (fun svc => svc.ExceptionHandler) then
        b.emit (Event.ExceptionHandler e) else b
    | none => w
  if hookSet w1.task (fun svc => svc.OnEndHandler) then w1.emit Event.OnEndHandler else w1

/-- The deferred function of the closure (lines 173-177). -/
def closureDefer (w : World S D) : World S D :=
  if w.task.Timeout > 0 then w.emit Event.doneChanSend else w

/-- The deferred function of `doCronTask` (lines 155-170). `recovered` is what
`recover()` returns: `some v` when a panic with value `v` unwinds the goroutine
that runs `doCronTask`. With a nil `task.taskService` the field access of line 163
panics inside the deferred function, where nothing recovers it. -/
def dispatchDefer (w : World S D) (taskCtx : TaskContext D) (recovered : Option String) :
    World S D :=
  let w1 := if taskCtx.TimeoutCancel then w.emit Event.TimeoutCancel else w
  let w2 := putTaskContext w1
  match recovered with
  | none => w2
  | some v =>
    let w3 := incErrorCounter w2
    let w4 := w3.logDebug "cron handler recover error"
    match w4.task.taskService with
    | none => { w4 with crashed := true }
    | some svc =>
      let w5 := if svc.ExceptionHandler then w4.emit (Event.ExceptionHandler v) else w4
      let w6 := startCronTask w5
      w6.logDebug "goroutine panic, restart CronTask"

/-- `doCronTask` (lines 153-221), for the context `taskCtx` that
`task.getTaskContext()` returned. When `Timeout > 0` the closure runs in a
goroutine of its own (`go handler()`): a panic of the handler there is outside the
deferred function of `doCronTask` and ends the process. -/
def doCronTaskCtx (IsMatch : S → Time → Bool) (w : World S D) (taskCtx : TaskContext D)
    (now : Time) (race : Race) : World S D :=
  let w0 : World S D := { w with ctx := some taskCtx }
  if w0.task.Timeout > 0 then
    match handlerHead IsMatch w0 taskCtx now with
    | (w1, some (HandlerResult.panicked _)) => { closureDefer w1 with crashed := true }
    | (w1, some (HandlerResult.returned err)) =>
      match race with
      | Race.doneFirst => dispatchDefer (closureDefer (handlerTail w1 err)) taskCtx none
      | Race.timeoutFirst =>
        closureDefer (handlerTail
          (dispatchDefer (w1.logDebug "do handler timeout.") taskCtx none) err)
    | (w1, none) =>
      match race with
      | Race.doneFirst => dispatchDefer (closureDefer w1) taskCtx none
      | Race.timeoutFirst =>
        closureDefer (dispatchDefer (w1.logDebug "do handler timeout.") taskCtx none)
  else
    match handlerHead IsMatch w0 taskCtx now with
    | (w1, some (HandlerResult.panicked v)) => dispatchDefer (closureDefer w1) taskCtx (some v)
    | (w1, some (HandlerResult.returned err)) =>
      dispatchDefer (closureDefer (handlerTail w1 err)) taskCtx none
    | (w1, none) => dispatchDefer (closureDefer w1) taskCtx none

/-- `doCronTask` with the context obtained from `task.getTaskContext()`. -/
def doCronTask (IsMatch : S → Time → Bool) (w : World S D) (now : Time) (race : Race) :
    World S D :=
  doCronTaskCtx IsMatch w (getTaskContext w.task) now race

/-- One iteration of the loop of lines 144-149 in the goroutine `loops[i]`: a tick
of the ticker it waits on arrives, `doCronTask` runs, and the goroutine goes back
to `select` on the channel of the current `task.TimeTicker`. Nothing happens when
there is no such goroutine, when its ticker is stopped, or after a crash. -/
def tick (IsMatch : S → Time → Bool) (w : World S D) (i : Nat) (now : Time) (race : Race) :
    World S D :=
  match w.loops[i]? with
  | none => w
  | some k =>
    if w.crashed || !(w.tickers.getD k false) then w
    else
      let w1 := doCronTask IsMatch w now race
      if w1.crashed then w1
      else { w1 with loops := w1.loops.set i (w1.task.TimeTicker.getD k) }

/-- `RunOnce` (lines 102-109): the handler is called with the context that
`task.getTaskContext()` returns. The second component is what the call does: the
returned `error` is the result of `RunOnce`, and a panic is not recovered here, it
unwinds into the caller of `RunOnce`. -/
def RunOnce (w : World S D) : World S D × HandlerResult :=
  let taskCtx := getTaskContext w.task
  ({ w with ctx := some taskCtx, trace := w.trace ++ [Event.handlerCall] },
   callHandler w.task taskCtx)

/-! ## Reachable worlds and what is observed of them -/

/-- The number of active polling loops: the live loop goroutines whose `select`
waits on a ticker that is running. -/
def activeLoops (w : World S D) : Nat :=
  (w.loops.filter (fun k => w.tickers.getD k false)).length

/-- The worlds reachable from a newly created task by attaching the task to its
service, `Start`, `Stop`, `Reset` and ticks. -/
inductive Reachable (parseExpress : String → ExpressType → S) (IsMatch : S → Time → Bool) :
    World S D → Prop where
  | create (taskID : String) (isRun : Bool) (express : String)
      (handler : Option (TaskHandle D)) (taskData : Option D) (t : CronTask S D)
      (h : NewCronTask parseExpress taskID isRun express handler taskData = (some t, none)) :
      Reachable parseExpress IsMatch (World.ofTask t)
  | attach (w : World S D) (svc : TaskService) (h : Reachable parseExpress IsMatch w) :
      Reachable parseExpress IsMatch (SetTaskService w svc)
  | start (w : World S D) (h : Reachable parseExpress IsMatch w) :
      Reachable parseExpress IsMatch (Start w)
  | stop (w : World S D) (h : Reachable parseExpress IsMatch w) :
      Reachable parseExpress IsMatch (Stop w)
  | reset (w : World S D) (conf : TaskConfig D) (h : Reachable parseExpress IsMatch w) :
      Reachable parseExpress IsMatch (Reset parseExpress w conf).1
  | tick (w : World S D) (i : Nat) (now : Time) (race : Race)
      (h : Reachable parseExpress IsMatch w) :
      Reachable parseExpress IsMatch (tick IsMatch w i now race)

/-- The task without its counters and its ticker: what remains is the
configuration, the state and the predicates. -/
def configOf (t : CronTask S D) : CronTask S D :=
  { t with counters := { RunCounter := 0, ErrorCounter := 0 }, TimeTicker := none }

/-- The task without its state, its counters and its ticker: what remains is the
configuration and the predicates. -/
def settingsOf (t : CronTask S D) : CronTask S D :=
  { t with State := TaskState.Init, counters := { RunCounter := 0, ErrorCounter := 0 },
           TimeTicker := none }

/-- The six predicates of `t` are the parse of the six parts of `t.RawExpress`:
part 0 as second, part 1 as minute, part 2 as hour, part 3 as day, part 4 as month,
part 5 as weekday. -/
def PredicatesFromRawExpress (parseExpress : String → ExpressType → S) (t : CronTask S D) :
    Prop :=
  (stringsSplit t.RawExpress).length = 6 ∧
  t.time_Second = parseExpress (field (stringsSplit t.RawExpress) 0) ExpressType.Second ∧
  t.time_Minute = parseExpress (field (stringsSplit t.RawExpress) 1) ExpressType.Minute ∧
  t.time_Hour = parseExpress (field (stringsSplit t.RawExpress) 2) ExpressType.Hour ∧
  t.time_Day = parseExpress (field (stringsSplit t.RawExpress) 3) ExpressType.Day ∧
  t.time_Month = parseExpress (field (stringsSplit t.RawExpress) 4) ExpressType.Month ∧
  t.time_WeekDay = parseExpress (field (stringsSplit t.RawExpress) 5) ExpressType.WeekDay

/-! ## The timing of `startCronTask` -/

/-- The duration `time.Second`, in nanoseconds. -/
def oneSecond : Nat := 1000000000

/-- Modelled from the spec: the constant `DefaultPeriod` is declared outside
`crontask.go`; the spec: the loop "ticks once per second" ("one timer, period = 1
second"). -/
def DefaultPeriod : Nat := oneSecond

/-- Line 139, `time.Date(now.Year(), ..., now.Second(), 0, time.Local)`: the instant
`now` with its nanoseconds set to zero. -/
def nowSecond (now : Time) : Time :=
  now - now % oneSecond

/-- Line 140, `nowSecond.Add(time.Second).Sub(time.Now().Local())`: the duration
from `now2`, the second reading of the clock, to the whole second after `now`. It is
negative when `now2` is past that second. -/
def afterTime (now now2 : Time) : Int :=
  ((nowSecond now + oneSecond : Nat) : Int) - (now2 : Int)

/-- The instant at which `time.Sleep(d)`, called at `start`, returns: at once when
`d` is not positive. -/
def sleepEnd (start : Time) (d : Int) : Time :=
  start + d.toNat

/-- The instant of the k-th tick (the first is `k = 0`) of the ticker that
`time.NewTicker(DefaultPeriod)` created at `created` (line 141): a ticker fires one
period after its creation and then once every period. -/
def tickerFire (created : Time) (k : Nat) : Time :=
  created + (k + 1) * DefaultPeriod

/-- The instant at which the loop of lines 144-149 receives the k-th tick of its
ticker, when handling a tick takes no time: when the tick fires, or when the `Sleep`
of line 143 returns if that is later (the tick then waits in the channel).
`now` and `now2` are the clock readings of lines 138 and 140, `created` is the
instant of the call of `NewTicker`, `started` the instant the goroutine starts. -/
def tickHandled (now now2 created started : Time) (k : Nat) : Time :=
  max (tickerFire created k) (sleepEnd started (afterTime now now2))

/-- The ticks of a loop launched at `t0`, when `startCronTask` itself takes no time:
all clock readings of the launch are `t0`. -/
def tickTime (t0 : Time) (k : Nat) : Time :=
  tickHandled t0 t0 t0 t0 k

/-! ## A tick that overlaps the assignments of `Reset` -/

/-- The predicate of the task for one kind of field. -/
def CronTask.predicate (t : CronTask S D) : ExpressType → S
  | ExpressType.Second => t.time_Second
  | ExpressType.Minute => t.time_Minute
  | ExpressType.Hour => t.time_Hour
  | ExpressType.Day => t.time_Day
  | ExpressType.Month => t.time_Month
  | ExpressType.WeekDay => t.time_WeekDay

/-- One assignment `task.time_X = p`. -/
def CronTask.assign (t : CronTask S D) (k : ExpressType) (p : S) : CronTask S D :=
  match k with
  | ExpressType.Second => { t with time_Second := p }
  | ExpressType.Minute => { t with time_Minute := p }
  | ExpressType.Hour => { t with time_Hour := p }
  | ExpressType.Day => { t with time_Day := p }
  | ExpressType.Month => { t with time_Month := p }
  | ExpressType.WeekDay => { t with time_WeekDay := p }

/-- The order in which `Reset` assigns the six predicates (lines 69, 71, 73, 75, 77,
79), which is also the order in which the condition of lines 179-184 reads them. -/
def predicateOrder : List ExpressType :=
  [ExpressType.WeekDay, ExpressType.Month, ExpressType.Day, ExpressType.Hour,
   ExpressType.Minute, ExpressType.Second]

/-- The index of the element of `expresslist` from which lines 69-79 parse the
predicate of a kind. -/
def partOf : ExpressType → Nat
  | ExpressType.Second => 0
  | ExpressType.Minute => 1
  | ExpressType.Hour => 2
  | ExpressType.Day => 3
  | ExpressType.Month => 4
  | ExpressType.WeekDay => 5

/-- One step of one of two goroutines that share the task: `tickRead` is the next
call `task.time_X.IsMatch(now)` of the condition of lines 179-184 in the goroutine
of a dispatched tick, `resetWrite` the next assignment of lines 69-79 in the
goroutine that runs `Reset`. `Reset` takes no lock and neither does `doCronTask`,
so the steps of the two can alternate in any way. -/
inductive Step where
  | tickRead
  | resetWrite
  deriving DecidableEq, Repr

/-- A tick in flight while `Reset` assigns: the shared task, the assignments `Reset`
has still to do, the predicates the tick has still to test, the predicates it has
read so far, and whether all of those matched. -/
structure Overlap (S D : Type) where
  task : CronTask S D
  toWrite : List ExpressType
  toRead : List ExpressType
  seen : List S
  matched : Bool

/-- The start: `Reset` is at line 68 and the tick at line 179, on the task `t`. -/
def Overlap.begin (t : CronTask S D) : Overlap S D :=
  { task := t, toWrite := predicateOrder, toRead := predicateOrder, seen := [],
    matched := true }

/-- One step. A read that does not match ends the evaluation of the condition
(`&&` evaluates no further operand). -/
def Overlap.step (parseExpress : String → ExpressType → S) (IsMatch : S → Time → Bool)
    (expresslist : List String) (now : Time) (o : Overlap S D) : Step → Overlap S D
  | Step.resetWrite =>
    match o.toWrite with
    | [] => o
    | k :: ks =>
      { o with
        task := o.task.assign k (parseExpress (field expresslist (partOf k)) k),
        toWrite := ks }
  | Step.tickRead =>
    match o.toRead with
    | [] => o
    | k :: ks =>
      if IsMatch (o.task.predicate k) now then
        { o with toRead := ks, seen := o.seen ++ [o.task.predicate k] }
      else
        { o with toRead := [], seen := o.seen ++ [o.task.predicate k], matched := false }

/-- The steps of a schedule, one after the other. -/
def Overlap.run (parseExpress : String → ExpressType → S) (IsMatch : S → Time → Bool)
    (expresslist : List String) (now : Time) (o : Overlap S D) (schedule : List Step) :
    Overlap S D :=
  schedule.foldl (fun a s => a.step parseExpress IsMatch expresslist now s) o

/-- The condition of lines 179-184 came out true: the tick goes on to the handler. -/
def Overlap.fires (o : Overlap S D) : Bool :=
  o.matched && o.toRead.isEmpty

/-! ## Concrete instances -/

/-- A parser that keeps the text and the kind of the field it was given. -/
def keepParse (s : String) (k : ExpressType) : String × ExpressType := (s, k)

/-- A handler that returns a nil error. -/
def okHandler : TaskHandle Unit := fun _ => HandlerResult.returned none

/-- A handler that returns the error `boom`. -/
def errHandler : TaskHandle Unit := fun _ => HandlerResult.returned (some "boom")

/-- A handler that panics with the value `crash`. -/
def panicHandler : TaskHandle Unit := fun _ => HandlerResult.panicked "crash"

/-- The task `NewCronTask("t1", true, "* * * * * *", h, nil)` returns. -/
def starTask (h : TaskHandle Unit) : CronTask (String × ExpressType) Unit :=
  { taskID := "t1"
    TaskType := TaskType.Cron
    IsRun := true
    handler := some h
    DueTime := 0
    TaskData := none
    State := TaskState.Init
    Timeout := 0
    TimeTicker := none
    taskService := none
    counters := { RunCounter := 0, ErrorCounter := 0 }
    RawExpress := "* * * * * *"
    time_WeekDay := ("*", ExpressType.WeekDay)
    time_Month := ("*", ExpressType.Month)
    time_Day := ("*", ExpressType.Day)
    time_Hour := ("*", ExpressType.Hour)
    time_Minute := ("*", ExpressType.Minute)
    time_Second := ("*", ExpressType.Second) }

/-- A configuration with the expression `e`, no handler and no task data. -/
def confOf (e : String) : TaskConfig Unit :=
  { TaskID := "other", TaskType := TaskType.Cron, IsRun := true, Handler := none,
    DueTime := 7, Interval := 0, Express := e, TaskData := none }

/-- A service with all three hooks set. -/
def allHooks : TaskService :=
  { OnBeforeHandler := true, OnEndHandler := true, ExceptionHandler := true }

/-- A predicate test under which the field `*` matches every instant and any
other field matches none. -/
def starMatch (p : String × ExpressType) (_now : Time) : Bool :=
  p.1 = "*"

/-- The started world of a task created with the expression `* * * * * *`, the
handler `h` and `Timeout = T`, attached to a service with all hooks set. -/
def startedWorld (h : TaskHandle Unit) (T : Int) : World (String × ExpressType) Unit :=
  Start (SetTaskService (World.ofTask { starTask h with Timeout := T }) allHooks)

/-- A predicate test under which every field but `x` matches every instant. -/
def exceptX (p : String × ExpressType) (_now : Time) : Bool :=
  p.1 != "x"

/-- The task `NewCronTask("t1", true, e, h, nil)` returns for a six-part `e`. -/
def taskOf (e : String) (h : TaskHandle Unit) : CronTask (String × ExpressType) Unit :=
  setPredicates keepParse (stringsSplit e) { starTask h with RawExpress := e }

/-- The schedule in which the tick reads its first predicate, then `Reset` does its
six assignments, then the tick reads the other five predicates. -/
def readWriteRead : List Step :=
  [Step.tickRead] ++ List.replicate 6 Step.resetWrite ++ List.replicate 5 Step.tickRead

/-! ## Auxiliary facts -/

theorem newEvents_emit (w : World S D) (e : Event) : newEvents w (w.emit e) = [e] := by
  simp [newEvents, World.emit]

theorem starTask_created (h : TaskHandle Unit) :
    NewCronTask keepParse "t1" true "* * * * * *" (some h) (none : Option Unit)
      = (some (starTask h), none) := by
  rfl

/-- `Stop` changes no field of the task but `State`. -/
theorem Stop_task (w : World S D) :
    (Stop w).task = { w.task with State := TaskState.Stop } := by
  unfold Stop
  rcases hs : w.task.State <;> rcases ht : w.task.TimeTicker <;>
    simp [World.emit, hs, ht]

/-- `Start` changes no field of the task but `State` and `TimeTicker`. -/
theorem Start_task (w : World S D) :
    ∃ st tt, (Start w).task = { w.task with State := st, TimeTicker := tt } := by
  unfold Start
  simp only [World.emit]
  split_ifs
  · exact ⟨_, _, rfl⟩
  · exact ⟨TaskState.Run, some w.tickers.length, rfl⟩
  · exact ⟨_, _, rfl⟩

theorem settingsOf_Start (w : World S D) :
    settingsOf (Start w).task = settingsOf w.task := by
  obtain ⟨st, tt, h⟩ := Start_task w
  rw [h]
  rfl

theorem settingsOf_Stop (w : World S D) :
    settingsOf (Stop w).task = settingsOf w.task := by
  rw [Stop_task]
  rfl

theorem settingsOf_configOf (t u : CronTask S D) (h : configOf t = configOf u) :
    settingsOf t = settingsOf u := by
  have h2 : settingsOf (configOf t) = settingsOf (configOf u) := by rw [h]
  exact h2

/-- When the expression is accepted, `Reset` is `Stop`, the copy of the
configuration, `Start` and a debug line. -/
theorem Reset_accepted (parseExpress : String → ExpressType → S) (w : World S D)
    (conf : TaskConfig D) (h1 : conf.Express ≠ "")
    (h2 : (stringsSplit conf.Express).length = 6) :
    Reset parseExpress w conf
      = ((Start (reloadConf parseExpress (stringsSplit conf.Express) conf (Stop w))).logDebug
          "TaskInfo:Reset success", none) := by
  unfold Reset
  simp [h1, h2]

/-- `Reset` returns nil exactly when the expression is not empty and has six parts. -/
theorem Reset_nil_iff (parseExpress : String → ExpressType → S) (w : World S D)
    (conf : TaskConfig D) :
    (Reset parseExpress w conf).2 = none ↔
      conf.Express ≠ "" ∧ (stringsSplit conf.Express).length = 6 := by
  unfold Reset
  by_cases h1 : conf.Express = ""
  · simp [h1]
  · by_cases h2 : (stringsSplit conf.Express).length = 6
    · simp [h1, h2]
    · simp [h1, h2]

/-- When the expression is rejected, `Reset` only writes a debug line. -/
theorem Reset_rejected (parseExpress : String → ExpressType → S) (w : World S D)
    (conf : TaskConfig D) (h : conf.Express = "" ∨ (stringsSplit conf.Express).length ≠ 6) :
    ∃ msg err, Reset parseExpress w conf = (w.logDebug msg, some err) := by
  unfold Reset
  by_cases h1 : conf.Express = ""
  · exact ⟨"TaskInfo:Reset error express is empty", "express is empty", by simp [h1]⟩
  · have h2 : (stringsSplit conf.Express).length ≠ 6 := by
      rcases h with h | h
      · exact absurd h h1
      · exact h
    exact ⟨"TaskInfo:Reset error express is wrong format => not 6 parts",
      "express is wrong format => not 6 parts", by simp [h1, h2]⟩

/-- Being a cron task with predicates parsed from `RawExpress` depends on the
settings of the task only. -/
theorem predicates_of_settingsOf (parseExpress : String → ExpressType → S)
    (t u : CronTask S D) (h : settingsOf t = settingsOf u)
    (hu : u.TaskType = TaskType.Cron ∧ PredicatesFromRawExpress parseExpress u) :
    t.TaskType = TaskType.Cron ∧ PredicatesFromRawExpress parseExpress t := by
  have h1 : (settingsOf u).TaskType = TaskType.Cron ∧
      PredicatesFromRawExpress parseExpress (settingsOf u) := hu
  rw [← h] at h1
  exact h1

/-- A task that `NewCronTask` returns is a cron task with predicates parsed from its
`RawExpress`. -/
theorem NewCronTask_predicates (parseExpress : String → ExpressType → S) (taskID : String)
    (isRun : Bool) (express : String) (handler : Option (TaskHandle D))
    (taskData : Option D) (t : CronTask S D)
    (h : NewCronTask parseExpress taskID isRun express handler taskData = (some t, none)) :
    t.TaskType = TaskType.Cron ∧ PredicatesFromRawExpress parseExpress t := by
  unfold NewCronTask at h
  by_cases h6 : (stringsSplit express).length = 6
  · simp only [h6, ne_eq, not_true_eq_false, if_false, Prod.mk.injEq, Option.some.injEq,
      and_true] at h
    subst h
    exact ⟨rfl, h6, rfl, rfl, rfl, rfl, rfl, rfl⟩
  · simp [h6] at h

/-- The copy of an accepted configuration into a cron task leaves a cron task with
predicates parsed from the new `RawExpress`. -/
theorem reloadConf_predicates (parseExpress : String → ExpressType → S) (w : World S D)
    (conf : TaskConfig D) (hc : w.task.TaskType = TaskType.Cron)
    (h6 : (stringsSplit conf.Express).length = 6) :
    (reloadConf parseExpress (stringsSplit conf.Express) conf w).task.TaskType = TaskType.Cron ∧
    PredicatesFromRawExpress parseExpress
      (reloadConf parseExpress (stringsSplit conf.Express) conf w).task := by
  unfold reloadConf
  rcases hd : conf.TaskData with _ | d <;> rcases hf : conf.Handler with _ | f <;>
    simp [setPredicates, PredicatesFromRawExpress, hc, h6]

theorem configOf_emit (w : World S D) (e : Event) :
    configOf (w.emit e).task = configOf w.task := rfl

theorem configOf_logDebug (w : World S D) (msg : String) :
    configOf (w.logDebug msg).task = configOf w.task := rfl

theorem configOf_incRunCounter (w : World S D) :
    configOf (incRunCounter w).task = configOf w.task := rfl

theorem configOf_incErrorCounter (w : World S D) :
    configOf (incErrorCounter w).task = configOf w.task := rfl

theorem configOf_putTaskContext (w : World S D) :
    configOf (putTaskContext w).task = configOf w.task := rfl

theorem configOf_startCronTask (w : World S D) :
    configOf (startCronTask w).task = configOf w.task := rfl

theorem configOf_closureDefer (w : World S D) :
    configOf (closureDefer w).task = configOf w.task := by
  unfold closureDefer
  split_ifs <;> rfl

theorem configOf_handlerTail (w : World S D) (err : Option GoError) :
    configOf (handlerTail w err).task = configOf w.task := by
  unfold handlerTail
  rcases err with _ | e
  · simp only
    split_ifs <;> rfl
  · simp only
    split_ifs <;> rfl

theorem configOf_handlerHead (IsMatch : S → Time → Bool) (w : World S D)
    (taskCtx : TaskContext D) (now : Time) :
    configOf (handlerHead IsMatch w taskCtx now).1.task = configOf w.task := by
  unfold handlerHead
  by_cases ha : allMatch IsMatch w.task now = true
  · by_cases hb : hookSet (incRunCounter w).task (fun svc => svc.OnBeforeHandler) = true
    · by_cases he : (!taskCtx.IsEnd) = true
      · simp only [ha, hb, he, if_true]
        rfl
      · simp only [ha, hb, he, if_true, if_false]
        rfl
    · by_cases he : (!taskCtx.IsEnd) = true
      · simp only [ha, hb, he, if_true, if_false]
        rfl
      · simp only [ha, hb, he, if_true, if_false]
        rfl
  · simp only [ha, if_false]
    rfl

theorem configOf_dispatchDefer (w : World S D) (taskCtx : TaskContext D)
    (recovered : Option String) :
    configOf (dispatchDefer w taskCtx recovered).task = configOf w.task := by
  unfold dispatchDefer
  rcases recovered with _ | v
  · simp only
    split_ifs <;> rfl
  · simp only
    split <;> split_ifs <;> rfl

/-- `doCronTask` changes no field of the task but the counters and `TimeTicker`. -/
theorem configOf_doCronTaskCtx (IsMatch : S → Time → Bool) (w : World S D)
    (taskCtx : TaskContext D) (now : Time) (race : Race) :
    configOf (doCronTaskCtx IsMatch w taskCtx now race).task = configOf w.task := by
  have hhead := configOf_handlerHead IsMatch { w with ctx := some taskCtx } taskCtx now
  unfold doCronTaskCtx
  simp only
  generalize handlerHead IsMatch { w with ctx := some taskCtx } taskCtx now = q at hhead ⊢
  obtain ⟨w1, r⟩ := q
  have hw : configOf w1.task = configOf w.task := hhead
  rcases r with _ | (err | v) <;> cases race <;> split_ifs <;>
    simp [configOf_dispatchDefer, configOf_closureDefer, configOf_handlerTail,
      configOf_logDebug, hw]

/-- A tick changes no field of the task but the counters and `TimeTicker`. -/
theorem configOf_tick (IsMatch : S → Time → Bool) (w : World S D) (i : Nat) (now : Time)
    (race : Race) :
    configOf (tick IsMatch w i now race).task = configOf w.task := by
  have h := configOf_doCronTaskCtx IsMatch w (getTaskContext w.task) now race
  unfold tick
  rcases w.loops[i]? with _ | k
  · rfl
  · simp only
    split_ifs
    · rfl
    · exact h
    · exact h

/-- Every reachable world holds a cron task with predicates parsed from its
`RawExpress`. -/
theorem Reachable_predicates (parseExpress : String → ExpressType → S)
    (IsMatch : S → Time → Bool) (w : World S D)
    (h : Reachable parseExpress IsMatch w) :
    w.task.TaskType = TaskType.Cron ∧ PredicatesFromRawExpress parseExpress w.task := by
  induction h with
  | create taskID isRun express handler taskData t h =>
    exact NewCronTask_predicates parseExpress taskID isRun express handler taskData t h
  | attach w svc _ ih => exact ih
  | start w _ ih =>
    exact predicates_of_settingsOf parseExpress _ _ (settingsOf_Start w) ih
  | stop w _ ih =>
    exact predicates_of_settingsOf parseExpress _ _ (settingsOf_Stop w) ih
  | reset w conf _ ih =>
    by_cases hr : conf.Express ≠ "" ∧ (stringsSplit conf.Express).length = 6
    · rw [Reset_accepted parseExpress w conf hr.1 hr.2]
      have hstop := predicates_of_settingsOf parseExpress _ _ (settingsOf_Stop w) ih
      have hre := reloadConf_predicates parseExpress (Stop w) conf hstop.1 hr.2
      exact predicates_of_settingsOf parseExpress _ _ (settingsOf_Start _) hre
    · have hr2 : conf.Express = "" ∨ (stringsSplit conf.Express).length ≠ 6 := by
        by_cases h1 : conf.Express = ""
        · exact Or.inl h1
        · exact Or.inr (fun h6 => hr ⟨h1, h6⟩)
      obtain ⟨msg, err, he⟩ := Reset_rejected parseExpress w conf hr2
      rw [he]
      exact ih
  | tick w i now race _ ih =>
    exact predicates_of_settingsOf parseExpress _ _
      (settingsOf_configOf _ _ (configOf_tick IsMatch w i now race)) ih

/-- A split at `sep` gives one more part than there are occurrences of `sep`. -/
theorem splitChars_length (sep : Char) (l : List Char) :
    (splitChars sep l).length = l.count sep + 1 := by
  induction l with
  | nil => simp [splitChars]
  | cons c cs ih =>
    unfold splitChars
    by_cases hc : c = sep
    · subst hc
      simp [ih]
    · have hne : splitChars sep cs ≠ [] := by
        intro h0
        rw [h0] at ih
        simp at ih
      rcases hs : splitChars sep cs with _ | ⟨f, fs⟩
      · exact absurd hs hne
      · rw [hs] at ih
        have hcount : (c :: cs).count sep = cs.count sep := by
          rw [List.count_cons]
          simp [hc]
        simp only [hc, if_false, hcount]
        simpa using ih

/-- `strings.Split(s, " ")` has six parts exactly when `s` holds five spaces. -/
theorem stringsSplit_length_six (s : String) :
    (stringsSplit s).length = 6 ↔ s.toList.count ' ' = 5 := by
  unfold stringsSplit
  rw [List.length_map, splitChars_length]
  omega

/-- An expression that is cut into six parts is not empty. -/
theorem ne_empty_of_six (s : String) (h : (stringsSplit s).length = 6) : s ≠ "" := by
  intro h0
  subst h0
  revert h
  decide

/-- `NewCronTask` returns a nil error exactly when the expression has six parts. -/
theorem NewCronTask_nil_iff (parseExpress : String → ExpressType → S) (taskID : String)
    (isRun : Bool) (e : String) (handler : Option (TaskHandle D)) (taskData : Option D) :
    (NewCronTask parseExpress taskID isRun e handler taskData).2 = none ↔
      (stringsSplit e).length = 6 := by
  unfold NewCronTask
  by_cases h6 : (stringsSplit e).length = 6
  · simp [h6]
  · simp [h6]

/-- The copy of a configuration sets `RawExpress` to the expression of the
configuration. -/
theorem reloadConf_RawExpress (parseExpress : String → ExpressType → S)
    (l : List String) (conf : TaskConfig D) (w : World S D) :
    (reloadConf parseExpress l conf w).task.RawExpress = conf.Express := by
  unfold reloadConf
  rcases hd : conf.TaskData with _ | d <;> rcases hf : conf.Handler with _ | f <;>
    by_cases hc : w.task.TaskType = TaskType.Cron <;>
    simp [setPredicates, hc]

/-- After an accepted `Reset` of a cron task, `RawExpress` is the expression of the
configuration and the six predicates are parsed from it. -/
theorem Reset_accepted_predicates (parseExpress : String → ExpressType → S) (w : World S D)
    (conf : TaskConfig D) (hc : w.task.TaskType = TaskType.Cron)
    (h6 : (stringsSplit conf.Express).length = 6) :
    (Reset parseExpress w conf).1.task.RawExpress = conf.Express ∧
    PredicatesFromRawExpress parseExpress (Reset parseExpress w conf).1.task := by
  rw [Reset_accepted parseExpress w conf (ne_empty_of_six _ h6) h6]
  have hstop : (Stop w).task.TaskType = TaskType.Cron := by
    rw [Stop_task]
    exact hc
  have hre := reloadConf_predicates parseExpress (Stop w) conf hstop h6
  have hs := settingsOf_Start (reloadConf parseExpress (stringsSplit conf.Express) conf (Stop w))
  refine ⟨?_, (predicates_of_settingsOf parseExpress _ _ hs hre).2⟩
  have hraw := congrArg CronTask.RawExpress hs
  simp only [settingsOf] at hraw
  simp only [World.logDebug, World.emit]
  rw [hraw]
  exact reloadConf_RawExpress parseExpress _ conf (Stop w)

/-- Copying the task's own configuration into a cron task whose predicates are
parsed from its `RawExpress` changes nothing of the task. -/
theorem reloadConf_GetConfig (parseExpress : String → ExpressType → S) (w : World S D)
    (hc : w.task.TaskType = TaskType.Cron)
    (hp : PredicatesFromRawExpress parseExpress w.task) :
    (reloadConf parseExpress (stringsSplit w.task.RawExpress) (GetConfig w.task) w).task
      = w.task := by
  obtain ⟨t, tickers, loops, ctx, trace, crashed⟩ := w
  obtain ⟨taskID, ty, isRun, handler, due, data, st, tmo, tt, svc, cnt, raw,
    wd, mo, dy, hr, mi, se⟩ := t
  simp only [PredicatesFromRawExpress] at hp
  simp only at hc
  obtain ⟨_, h0, h1, h2, h3, h4, h5⟩ := hp
  subst hc
  rcases data with _ | d <;> rcases handler with _ | f <;>
    simp [reloadConf, GetConfig, setPredicates, ← h0, ← h1, ← h2, ← h3, ← h4, ← h5]

/-! ## Reset and NewCronTask: validation -/

/-- C1: when `Reset` returns an error (which it does exactly for an empty expression
or one that `strings.Split` does not cut into six parts), the task is what it was
before the call in every field, no ticker or loop goroutine changed, the only effect
is one debug log line, and neither `Stop` nor `Start` was called. -/
theorem C1_reset_error_mutates_nothing (parseExpress : String → ExpressType → S)
    (w : World S D) (conf : TaskConfig D)
    (h : (Reset parseExpress w conf).2 ≠ none) :
    (conf.Express = "" ∨ (stringsSplit conf.Express).length ≠ 6) ∧
    (Reset parseExpress w conf).1.task = w.task ∧
    (Reset parseExpress w conf).1.tickers = w.tickers ∧
    (Reset parseExpress w conf).1.loops = w.loops ∧
    (Reset parseExpress w conf).1.ctx = w.ctx ∧
    (∃ msg, newEvents w (Reset parseExpress w conf).1 = [Event.Debug msg]) ∧
    Event.StopCalled ∉ newEvents w (Reset parseExpress w conf).1 ∧
    Event.StartCalled ∉ newEvents w (Reset parseExpress w conf).1 := by
  unfold Reset at h ⊢
  by_cases h1 : conf.Express = ""
  · simp [h1, World.logDebug, newEvents, World.emit]
  · by_cases h2 : (stringsSplit conf.Express).length ≠ 6
    · simp only [h1, h2, if_true, if_false]
      simp [World.logDebug, newEvents, World.emit, h2]
    · simp [h1, h2] at h

/-- C1, at the configuration with the five-part expression `1 2 3 4 5`. -/
theorem C1_reset_error_mutates_nothing_witness :
    (Reset keepParse (World.ofTask (starTask okHandler)) (confOf "1 2 3 4 5")).2 ≠ none ∧
    (Reset keepParse (World.ofTask (starTask okHandler)) (confOf "1 2 3 4 5")).1.task
      = starTask okHandler :=
  ⟨by decide,
   (C1_reset_error_mutates_nothing keepParse (World.ofTask (starTask okHandler))
      (confOf "1 2 3 4 5") (by decide)).2.1⟩

/-- C2 as stated fails: `1  2 3 4 5` (two spaces after `1`) has five
white-space-separated fields, yet `NewCronTask` returns a task and no error, and
`Reset` with that expression returns no error. -/
theorem C2_counterexample_double_space :
    (whitespaceFields "1  2 3 4 5").length = 5 ∧
    (NewCronTask keepParse "t1" true "1  2 3 4 5" (some okHandler) (none : Option Unit)).1.isSome
      = true ∧
    (NewCronTask keepParse "t1" true "1  2 3 4 5" (some okHandler) (none : Option Unit)).2
      = none ∧
    (Reset keepParse (World.ofTask (starTask okHandler)) (confOf "1  2 3 4 5")).2 = none := by
  refine ⟨by decide, by decide, by decide, by decide⟩

/-- C2, amended: for every expression that is empty or that a split at the single
space character does not cut into exactly six parts, `NewCronTask` returns an error
and no task, and `Reset` with that expression returns an error. -/
theorem C2_not_six_parts_is_rejected (parseExpress : String → ExpressType → S) (e : String)
    (h : e = "" ∨ (stringsSplit e).length ≠ 6) :
    (∀ (taskID : String) (isRun : Bool) (handler : Option (TaskHandle D))
        (taskData : Option D),
      NewCronTask parseExpress taskID isRun e handler taskData
        = (none, some "express is wrong format => not 6 parts")) ∧
    (∀ (w : World S D) (conf : TaskConfig D), conf.Express = e →
      (Reset parseExpress w conf).2 ≠ none) := by
  have h6 : (stringsSplit e).length ≠ 6 := by
    rcases h with h | h
    · subst h; decide
    · exact h
  constructor
  · intro taskID isRun handler taskData
    simp [NewCronTask, h6]
  · intro w conf hc
    subst hc
    unfold Reset
    by_cases h1 : conf.Express = ""
    · simp [h1]
    · simp [h1, h6]

/-- C2 amended, at the seven-part expression `1 2 3 4 5 6 7`. -/
theorem C2_not_six_parts_is_rejected_witness :
    (stringsSplit "1 2 3 4 5 6 7").length ≠ 6 ∧
    NewCronTask keepParse "t1" true "1 2 3 4 5 6 7" (some okHandler) (none : Option Unit)
      = (none, some "express is wrong format => not 6 parts") ∧
    (Reset keepParse (World.ofTask (starTask okHandler)) (confOf "1 2 3 4 5 6 7")).2 ≠ none :=
  ⟨by decide,
   (C2_not_six_parts_is_rejected keepParse "1 2 3 4 5 6 7" (Or.inr (by decide))).1
      "t1" true (some okHandler) none,
   (C2_not_six_parts_is_rejected keepParse "1 2 3 4 5 6 7" (Or.inr (by decide))).2
      (World.ofTask (starTask okHandler)) (confOf "1 2 3 4 5 6 7") rfl⟩

/-! ## Start -/

/-- C3: `Start` changes the task only when `IsRun` is true and `State` is `Init` or
`Stop`; then `State` becomes `Run` and exactly one loop goroutine is launched, on a
new ticker. In every other case the task, the tickers and the loop goroutines are
unchanged and nothing is launched. A second `Start` right after a `Start` changes
neither the task nor the tickers nor the loop goroutines. -/
theorem C3_start_effective_or_noop (w : World S D) :
    (w.task.IsRun = true ∧ (w.task.State = TaskState.Init ∨ w.task.State = TaskState.Stop) →
      (Start w).task.State = TaskState.Run ∧
      (Start w).loops = w.loops ++ [w.tickers.length] ∧
      (Start w).loops.length = w.loops.length + 1 ∧
      newEvents w (Start w) = [Event.StartCalled, Event.launch w.tickers.length]) ∧
    (¬ (w.task.IsRun = true ∧
          (w.task.State = TaskState.Init ∨ w.task.State = TaskState.Stop)) →
      (Start w).task = w.task ∧ (Start w).loops = w.loops ∧
      (Start w).tickers = w.tickers ∧
      newEvents w (Start w) = [Event.StartCalled]) ∧
    ((Start (Start w)).task = (Start w).task ∧
      (Start (Start w)).loops = (Start w).loops ∧
      (Start (Start w)).tickers = (Start w).tickers) := by
  refine ⟨?_, ?_, ?_⟩
  · rintro ⟨h1, h2⟩
    simp [Start, World.emit, startCronTask, newEvents, h1, h2]
  · intro h
    by_cases h1 : w.task.IsRun = true
    · have h2 : ¬ (w.task.State = TaskState.Init ∨ w.task.State = TaskState.Stop) :=
        fun h2 => h ⟨h1, h2⟩
      simp [Start, World.emit, newEvents, h1, h2]
    · simp [Start, World.emit, newEvents, h1]
  · by_cases h1 : w.task.IsRun = true
    · by_cases h2 : w.task.State = TaskState.Init ∨ w.task.State = TaskState.Stop
      · simp [Start, World.emit, startCronTask, h1, h2]
      · simp [Start, World.emit, h1, h2]
    · simp [Start, World.emit, h1]

/-- C3, at a newly created task with `IsRun` true: one loop goroutine after one
`Start`, and still one after two. -/
theorem C3_start_effective_or_noop_witness :
    (Start (World.ofTask (starTask okHandler))).task.State = TaskState.Run ∧
    (Start (World.ofTask (starTask okHandler))).loops.length = 1 ∧
    (Start (Start (World.ofTask (starTask okHandler)))).loops
      = (Start (World.ofTask (starTask okHandler))).loops :=
  ⟨((C3_start_effective_or_noop (World.ofTask (starTask okHandler))).1
      ⟨rfl, Or.inl rfl⟩).1,
   ((C3_start_effective_or_noop (World.ofTask (starTask okHandler))).1
      ⟨rfl, Or.inl rfl⟩).2.2.1,
   (C3_start_effective_or_noop (World.ofTask (starTask okHandler))).2.2.2.1⟩

/-! ## The dispatch of one tick, `Timeout = 0` -/

/-- C4: on a tick with `Timeout = 0` and a context that is not concluded, the
handler is called (once) and the run counter goes up by one exactly when all six
predicates match the instant of the tick; when one of them does not match, neither
the handler nor any hook is called and both counters keep their values. That the
handler `h` of the task is the function that is called shows in what the tick does
with its result: on a match the error counter goes up by one unless `h` returns a nil
error; an error `e` that `h` returns is stored in the context exactly when all six
match; and a panic of `h` reaches the deferred `recover` exactly when all six
match. -/
theorem C4_fires_iff_all_six_match (IsMatch : S → Time → Bool) (w : World S D)
    (taskCtx : TaskContext D) (now : Time) (race : Race)
    (hT : w.task.Timeout = 0) (hfresh : taskCtx.IsEnd = false) :
    (Event.handlerCall ∈ newEvents w (doCronTaskCtx IsMatch w taskCtx now race) ↔
      (IsMatch w.task.time_Second now = true ∧ IsMatch w.task.time_Minute now = true ∧
       IsMatch w.task.time_Hour now = true ∧ IsMatch w.task.time_Day now = true ∧
       IsMatch w.task.time_Month now = true ∧ IsMatch w.task.time_WeekDay now = true)) ∧
    ((doCronTaskCtx IsMatch w taskCtx now race).task.counters.RunCounter
        = w.task.counters.RunCounter + 1 ↔
      (IsMatch w.task.time_Second now = true ∧ IsMatch w.task.time_Minute now = true ∧
       IsMatch w.task.time_Hour now = true ∧ IsMatch w.task.time_Day now = true ∧
       IsMatch w.task.time_Month now = true ∧ IsMatch w.task.time_WeekDay now = true)) ∧
    (newEvents w (doCronTaskCtx IsMatch w taskCtx now race)).count Event.handlerCall ≤ 1 ∧
    (¬ (IsMatch w.task.time_Second now = true ∧ IsMatch w.task.time_Minute now = true ∧
        IsMatch w.task.time_Hour now = true ∧ IsMatch w.task.time_Day now = true ∧
        IsMatch w.task.time_Month now = true ∧ IsMatch w.task.time_WeekDay now = true) →
      Event.handlerCall ∉ newEvents w (doCronTaskCtx IsMatch w taskCtx now race) ∧
      Event.OnBeforeHandler ∉ newEvents w (doCronTaskCtx IsMatch w taskCtx now race) ∧
      Event.OnEndHandler ∉ newEvents w (doCronTaskCtx IsMatch w taskCtx now race) ∧
      (∀ e, Event.ExceptionHandler e ∉
        newEvents w (doCronTaskCtx IsMatch w taskCtx now race)) ∧
      (doCronTaskCtx IsMatch w taskCtx now race).task.counters = w.task.counters) ∧
    (∀ (h : TaskHandle D), w.task.handler = some h →
      ((IsMatch w.task.time_Second now = true ∧ IsMatch w.task.time_Minute now = true ∧
        IsMatch w.task.time_Hour now = true ∧ IsMatch w.task.time_Day now = true ∧
        IsMatch w.task.time_Month now = true ∧ IsMatch w.task.time_WeekDay now = true) →
        (doCronTaskCtx IsMatch w taskCtx now race).task.counters.ErrorCounter
          = w.task.counters.ErrorCounter +
            (match h taskCtx with
             | HandlerResult.returned none => 0
             | HandlerResult.returned (some _) => 1
             | HandlerResult.panicked _ => 1)) ∧
      (∀ e, h taskCtx = HandlerResult.returned (some e) →
        (Event.setError e ∈ newEvents w (doCronTaskCtx IsMatch w taskCtx now race) ↔
          (IsMatch w.task.time_Second now = true ∧ IsMatch w.task.time_Minute now = true ∧
           IsMatch w.task.time_Hour now = true ∧ IsMatch w.task.time_Day now = true ∧
           IsMatch w.task.time_Month now = true ∧ IsMatch w.task.time_WeekDay now = true)) ∧
        ((IsMatch w.task.time_Second now = true ∧ IsMatch w.task.time_Minute now = true ∧
          IsMatch w.task.time_Hour now = true ∧ IsMatch w.task.time_Day now = true ∧
          IsMatch w.task.time_Month now = true ∧ IsMatch w.task.time_WeekDay now = true) →
          (doCronTaskCtx IsMatch w taskCtx now race).ctx.map (fun c => c.Error)
            = some (some e))) ∧
      (∀ v, h taskCtx = HandlerResult.panicked v →
        (Event.Debug "cron handler recover error"
            ∈ newEvents w (doCronTaskCtx IsMatch w taskCtx now race) ↔
          (IsMatch w.task.time_Second now = true ∧ IsMatch w.task.time_Minute now = true ∧
           IsMatch w.task.time_Hour now = true ∧ IsMatch w.task.time_Day now = true ∧
           IsMatch w.task.time_Month now = true ∧ IsMatch w.task.time_WeekDay now = true)))) := by
  have hm : (IsMatch w.task.time_Second now = true ∧ IsMatch w.task.time_Minute now = true ∧
       IsMatch w.task.time_Hour now = true ∧ IsMatch w.task.time_Day now = true ∧
       IsMatch w.task.time_Month now = true ∧ IsMatch w.task.time_WeekDay now = true)
      ↔ allMatch IsMatch w.task now = true := by
    simp only [allMatch, Bool.and_eq_true]
    tauto
  simp only [hm]
  clear hm
  have hc : taskCtx.TimeoutCancel = true ∨ taskCtx.TimeoutCancel = false := by
    cases taskCtx.TimeoutCancel <;> simp
  by_cases ha : allMatch IsMatch w.task now = true
  · rcases hc with hc | hc <;>
    rcases hs : w.task.taskService with _ | ⟨b1, b2, b3⟩ <;>
    rcases hh : w.task.handler with _ | h <;>
    (try rcases hr : h taskCtx with (_ | e) | v) <;>
    (try cases b1) <;> (try cases b2) <;> (try cases b3) <;>
    simp [doCronTaskCtx, handlerHead, handlerTail, closureDefer, dispatchDefer,
      putTaskContext, incRunCounter, incErrorCounter, hookSet, World.emit,
      World.logDebug, startCronTask, newEvents, callHandler, *]
  · rcases hc with hc | hc <;>
    simp [doCronTaskCtx, handlerHead, closureDefer, dispatchDefer,
      putTaskContext, World.emit, newEvents, *]

/-- C4, at a newly created task whose six fields are `*` and whose handler returns
the error `boom`: the tick is dispatched, the run counter becomes 1, and the error
`boom` of the handler is stored in the context and counted. -/
theorem C4_fires_iff_all_six_match_witness :
    (World.ofTask (starTask errHandler)).task.Timeout = 0 ∧
    (getTaskContext (starTask errHandler)).IsEnd = false ∧
    (doCronTaskCtx starMatch (World.ofTask (starTask errHandler))
        (getTaskContext (starTask errHandler)) 5 Race.doneFirst).task.counters.RunCounter
      = 0 + 1 ∧
    Event.setError "boom" ∈ newEvents (World.ofTask (starTask errHandler))
      (doCronTaskCtx starMatch (World.ofTask (starTask errHandler))
        (getTaskContext (starTask errHandler)) 5 Race.doneFirst) ∧
    (doCronTaskCtx starMatch (World.ofTask (starTask errHandler))
        (getTaskContext (starTask errHandler)) 5 Race.doneFirst).ctx.map (fun c => c.Error)
      = some (some "boom") ∧
    (doCronTaskCtx starMatch (World.ofTask (starTask errHandler))
        (getTaskContext (starTask errHandler)) 5 Race.doneFirst).task.counters.ErrorCounter
      = 0 + 1 :=
  ⟨rfl, rfl,
   (C4_fires_iff_all_six_match starMatch (World.ofTask (starTask errHandler))
      (getTaskContext (starTask errHandler)) 5 Race.doneFirst rfl rfl).2.1.mpr
      ⟨rfl, rfl, rfl, rfl, rfl, rfl⟩,
   (((C4_fires_iff_all_six_match starMatch (World.ofTask (starTask errHandler))
      (getTaskContext (starTask errHandler)) 5 Race.doneFirst rfl rfl).2.2.2.2
      errHandler rfl).2.1 "boom" rfl).1.mpr ⟨rfl, rfl, rfl, rfl, rfl, rfl⟩,
   (((C4_fires_iff_all_six_match starMatch (World.ofTask (starTask errHandler))
      (getTaskContext (starTask errHandler)) 5 Race.doneFirst rfl rfl).2.2.2.2
      errHandler rfl).2.1 "boom" rfl).2 ⟨rfl, rfl, rfl, rfl, rfl, rfl⟩,
   ((C4_fires_iff_all_six_match starMatch (World.ofTask (starTask errHandler))
      (getTaskContext (starTask errHandler)) 5 Race.doneFirst rfl rfl).2.2.2.2
      errHandler rfl).1 ⟨rfl, rfl, rfl, rfl, rfl, rfl⟩⟩

/-- C5: on a matched tick with `Timeout = 0`, a context that is not concluded and a
handler that returns `err`, the effects are, in this order and once each: the run
counter goes up by one, the before hook (if set) is called, the handler is called;
then, exactly when `err` is a non-nil error, it is stored in the context, the error
counter goes up by one and the exception hook (if set) is called with `err`; then the
end hook (if set) is called; last the context is released. With a nil `err` the error
counter keeps its value. -/
theorem C5_order_of_effects (IsMatch : S → Time → Bool) (w : World S D)
    (taskCtx : TaskContext D) (now : Time) (race : Race) (err : Option GoError)
    (hT : w.task.Timeout = 0) (hfresh : taskCtx.IsEnd = false)
    (hmatch : IsMatch w.task.time_Second now = true ∧ IsMatch w.task.time_Minute now = true ∧
       IsMatch w.task.time_Hour now = true ∧ IsMatch w.task.time_Day now = true ∧
       IsMatch w.task.time_Month now = true ∧ IsMatch w.task.time_WeekDay now = true)
    (hret : callHandler w.task taskCtx = HandlerResult.returned err) :
    newEvents w (doCronTaskCtx IsMatch w taskCtx now race)
      = [Event.RunCounterInc]
        ++ (if hookSet w.task (fun svc => svc.OnBeforeHandler) then [Event.OnBeforeHandler]
            else [])
        ++ [Event.handlerCall]
        ++ (match err with
            | some e =>
              [Event.setError e, Event.ErrorCounterInc]
                ++ (if hookSet w.task (fun svc => svc.ExceptionHandler) then
                      [Event.ExceptionHandler e] else [])
            | none => [])
        ++ (if hookSet w.task (fun svc => svc.OnEndHandler) then [Event.OnEndHandler] else [])
        ++ (if taskCtx.TimeoutCancel then [Event.TimeoutCancel] else [])
        ++ [Event.putTaskContext] ∧
    (doCronTaskCtx IsMatch w taskCtx now race).task.counters.RunCounter
      = w.task.counters.RunCounter + 1 ∧
    (doCronTaskCtx IsMatch w taskCtx now race).task.counters.ErrorCounter
      = w.task.counters.ErrorCounter + (if err.isSome then 1 else 0) ∧
    ((doCronTaskCtx IsMatch w taskCtx now race).ctx.map (fun c => c.Error)
      = some (match err with
          | some e => some e
          | none => taskCtx.Error)) := by
  have ha : allMatch IsMatch w.task now = true := by
    simp only [allMatch, Bool.and_eq_true]
    tauto
  clear hmatch
  have hc : taskCtx.TimeoutCancel = true ∨ taskCtx.TimeoutCancel = false := by
    cases taskCtx.TimeoutCancel <;> simp
  unfold callHandler at hret
  rcases hc with hc | hc <;>
  rcases hs : w.task.taskService with _ | ⟨b1, b2, b3⟩ <;>
  rcases hh : w.task.handler with _ | h <;>
  rw [hh] at hret <;>
  simp only [reduceCtorEq] at hret <;>
  rcases err with _ | e <;>
  (try cases b1) <;> (try cases b2) <;> (try cases b3) <;>
  simp [doCronTaskCtx, handlerHead, handlerTail, closureDefer, dispatchDefer,
    putTaskContext, incRunCounter, incErrorCounter, hookSet, World.emit,
    World.logDebug, startCronTask, newEvents, callHandler, *]

/-- C5, at a task that has all three hooks set and a handler returning the error
`boom`: the seven effects in their order. -/
theorem C5_order_of_effects_witness :
    newEvents (SetTaskService (World.ofTask (starTask errHandler)) allHooks)
        (doCronTaskCtx starMatch (SetTaskService (World.ofTask (starTask errHandler)) allHooks)
          (getTaskContext (starTask errHandler)) 5 Race.doneFirst)
      = [Event.RunCounterInc, Event.OnBeforeHandler, Event.handlerCall, Event.setError "boom",
         Event.ErrorCounterInc, Event.ExceptionHandler "boom", Event.OnEndHandler,
         Event.putTaskContext] :=
  (C5_order_of_effects starMatch (SetTaskService (World.ofTask (starTask errHandler)) allHooks)
    (getTaskContext (starTask errHandler)) 5 Race.doneFirst (some "boom") rfl rfl
    ⟨rfl, rfl, rfl, rfl, rfl, rfl⟩ rfl).1

/-! ## Panics of the handler -/

/-- With `Timeout = 0` the deferred function of `doCronTask` recovers a panic of the
handler: the error counter goes up by one, the exception hook (if set) receives the
panic value, and `startCronTask` launches a loop on a new ticker. -/
theorem doCronTaskCtx_recovers_inline (IsMatch : S → Time → Bool) (w : World S D)
    (taskCtx : TaskContext D) (now : Time) (race : Race) (v : String) (svc : TaskService)
    (hT : w.task.Timeout = 0) (hfresh : taskCtx.IsEnd = false)
    (ha : allMatch IsMatch w.task now = true)
    (hsvc : w.task.taskService = some svc)
    (hpanic : callHandler w.task taskCtx = HandlerResult.panicked v) :
    (doCronTaskCtx IsMatch w taskCtx now race).task.counters.ErrorCounter
      = w.task.counters.ErrorCounter + 1 ∧
    (svc.ExceptionHandler = true →
      Event.ExceptionHandler v ∈ newEvents w (doCronTaskCtx IsMatch w taskCtx now race)) ∧
    Event.launch w.tickers.length ∈ newEvents w (doCronTaskCtx IsMatch w taskCtx now race) ∧
    (doCronTaskCtx IsMatch w taskCtx now race).loops = w.loops ++ [w.tickers.length] ∧
    (doCronTaskCtx IsMatch w taskCtx now race).crashed = w.crashed := by
  have hc : taskCtx.TimeoutCancel = true ∨ taskCtx.TimeoutCancel = false := by
    cases taskCtx.TimeoutCancel <;> simp
  obtain ⟨b1, b2, b3⟩ := svc
  unfold callHandler at hpanic
  rcases hc with hc | hc <;>
  rcases hh : w.task.handler with _ | h <;>
  rw [hh] at hpanic <;>
  simp only [HandlerResult.panicked.injEq] at hpanic <;>
  cases b1 <;> cases b2 <;> cases b3 <;>
  simp [doCronTaskCtx, handlerHead, handlerTail, closureDefer, dispatchDefer,
    putTaskContext, incRunCounter, incErrorCounter, hookSet, World.emit,
    World.logDebug, startCronTask, newEvents, callHandler, *]

/-- C6 fails for `Timeout > 0`: a task with `Timeout = 1`, all hooks set and a
handler that panics, started and ticked at a matching instant. The panic happens in
the goroutine of `go handler()`, outside the deferred `recover` of `doCronTask`: the
process ends, the error counter is still 0, the exception hook is not called, no
loop is relaunched, and a later tick runs nothing. The same input with `Timeout = 0`
is recovered. -/
theorem C6_panic_under_timeout_is_not_recovered :
    (tick starMatch (startedWorld panicHandler 1) 0 5 Race.doneFirst).crashed = true ∧
    (tick starMatch (startedWorld panicHandler 1) 0 5 Race.doneFirst).task.counters.ErrorCounter
      = 0 ∧
    Event.ExceptionHandler "crash" ∉
      (tick starMatch (startedWorld panicHandler 1) 0 5 Race.doneFirst).trace ∧
    (tick starMatch (startedWorld panicHandler 1) 0 5 Race.doneFirst).loops
      = (startedWorld panicHandler 1).loops ∧
    tick starMatch (tick starMatch (startedWorld panicHandler 1) 0 5 Race.doneFirst) 0 6
        Race.doneFirst
      = tick starMatch (startedWorld panicHandler 1) 0 5 Race.doneFirst ∧
    (tick starMatch (startedWorld panicHandler 0) 0 5 Race.doneFirst).crashed = false ∧
    (tick starMatch (startedWorld panicHandler 0) 0 5 Race.doneFirst).task.counters.ErrorCounter
      = 1 ∧
    Event.ExceptionHandler "crash" ∈
      (tick starMatch (startedWorld panicHandler 0) 0 5 Race.doneFirst).trace := by
  refine ⟨by decide, by decide, by decide, by decide, rfl, by decide, by decide, by decide⟩

/-- C7 fails after a recovered panic: a task with `Timeout = 0` and a handler that
panics, created, attached, started and ticked once at a matching instant, is in
`State` `Run` with two active loops. The goroutine in which the handler panicked goes
on with the loop of `startCronTask` after `doCronTask` returned, and the deferred
function launched a second goroutine; both wait on the new ticker. -/
theorem C7_two_loops_after_recovered_panic :
    Reachable keepParse starMatch (tick starMatch (startedWorld panicHandler 0) 0 5
      Race.doneFirst) ∧
    (startedWorld panicHandler 0).task.State = TaskState.Run ∧
    activeLoops (startedWorld panicHandler 0) = 1 ∧
    (tick starMatch (startedWorld panicHandler 0) 0 5 Race.doneFirst).task.State
      = TaskState.Run ∧
    (tick starMatch (startedWorld panicHandler 0) 0 5 Race.doneFirst).crashed = false ∧
    (tick starMatch (startedWorld panicHandler 0) 0 5 Race.doneFirst).loops = [1, 1] ∧
    (tick starMatch (startedWorld panicHandler 0) 0 5 Race.doneFirst).tickers = [true, true] ∧
    activeLoops (tick starMatch (startedWorld panicHandler 0) 0 5 Race.doneFirst) = 2 := by
  refine ⟨?_, by decide, by decide, by decide, by decide, by decide, by decide, by decide⟩
  exact Reachable.tick _ 0 5 Race.doneFirst
    (Reachable.start _ (Reachable.attach _ allHooks
      (Reachable.create "t1" true "* * * * * *" (some panicHandler) none _
        (starTask_created panicHandler))))

/-! ## The dispatch of one tick, `Timeout > 0` -/

/-- C8 as stated fails: a task with `Timeout = 1` and all hooks set, ticked at a
matching instant with the expiry observed before the completion signal. With a
handler that returns nil the error counter is still 0 after the tick, so the timeout
was not counted; and the end hook is called after the timeout was declared. With a
handler that returns an error, the error counter goes up and the exception hook is
called after the timeout was declared. -/
theorem C8_counterexample_timeout_not_counted :
    (tick starMatch (startedWorld okHandler 1) 0 5 Race.timeoutFirst).task.counters.ErrorCounter
      = 0 ∧
    newEvents (startedWorld okHandler 1)
        (tick starMatch (startedWorld okHandler 1) 0 5 Race.timeoutFirst)
      = [Event.RunCounterInc, Event.OnBeforeHandler, Event.handlerCall,
         Event.Debug "do handler timeout.", Event.TimeoutCancel, Event.putTaskContext,
         Event.OnEndHandler, Event.doneChanSend] ∧
    newEvents (startedWorld errHandler 1)
        (tick starMatch (startedWorld errHandler 1) 0 5 Race.timeoutFirst)
      = [Event.RunCounterInc, Event.OnBeforeHandler, Event.handlerCall,
         Event.Debug "do handler timeout.", Event.TimeoutCancel, Event.putTaskContext,
         Event.setError "boom", Event.ErrorCounterInc, Event.ExceptionHandler "boom",
         Event.OnEndHandler, Event.doneChanSend] := by
  refine ⟨by decide, by decide, by decide⟩

/-- C8, amended: on a matched tick with `Timeout > 0` where the expiry is observed
before the completion signal, the dispatch itself only writes the debug line
`do handler timeout.`, cancels the timeout handle (if any) and releases the context:
the timeout increments no counter and calls no hook. The later completion of the
handler is accounted like any completion: a non-nil error is stored in the context,
increments the error counter by one and is passed to the exception hook (if set), the
end hook (if set) is called, and a nil error leaves the error counter unchanged. -/
theorem C8_timeout_first_accounting (IsMatch : S → Time → Bool) (w : World S D)
    (taskCtx : TaskContext D) (now : Time) (err : Option GoError)
    (hT : w.task.Timeout > 0) (hfresh : taskCtx.IsEnd = false)
    (hmatch : IsMatch w.task.time_Second now = true ∧ IsMatch w.task.time_Minute now = true ∧
       IsMatch w.task.time_Hour now = true ∧ IsMatch w.task.time_Day now = true ∧
       IsMatch w.task.time_Month now = true ∧ IsMatch w.task.time_WeekDay now = true)
    (hret : callHandler w.task taskCtx = HandlerResult.returned err) :
    newEvents w (doCronTaskCtx IsMatch w taskCtx now Race.timeoutFirst)
      = [Event.RunCounterInc]
        ++ (if hookSet w.task (fun svc => svc.OnBeforeHandler) then [Event.OnBeforeHandler]
            else [])
        ++ [Event.handlerCall]
        ++ [Event.Debug "do handler timeout."]
        ++ (if taskCtx.TimeoutCancel then [Event.TimeoutCancel] else [])
        ++ [Event.putTaskContext]
        ++ (match err with
            | some e =>
              [Event.setError e, Event.ErrorCounterInc]
                ++ (if hookSet w.task (fun svc => svc.ExceptionHandler) then
                      [Event.ExceptionHandler e] else [])
            | none => [])
        ++ (if hookSet w.task (fun svc => svc.OnEndHandler) then [Event.OnEndHandler] else [])
        ++ [Event.doneChanSend] ∧
    (doCronTaskCtx IsMatch w taskCtx now Race.timeoutFirst).task.counters.RunCounter
      = w.task.counters.RunCounter + 1 ∧
    (doCronTaskCtx IsMatch w taskCtx now Race.timeoutFirst).task.counters.ErrorCounter
      = w.task.counters.ErrorCounter + (if err.isSome then 1 else 0) ∧
    (doCronTaskCtx IsMatch w taskCtx now Race.timeoutFirst).crashed = w.crashed := by
  have ha : allMatch IsMatch w.task now = true := by
    simp only [allMatch, Bool.and_eq_true]
    tauto
  clear hmatch
  have hT2 : (0 : Int) < w.task.Timeout := hT
  have hc : taskCtx.TimeoutCancel = true ∨ taskCtx.TimeoutCancel = false := by
    cases taskCtx.TimeoutCancel <;> simp
  unfold callHandler at hret
  rcases hc with hc | hc <;>
  rcases hs : w.task.taskService with _ | ⟨b1, b2, b3⟩ <;>
  rcases hh : w.task.handler with _ | h <;>
  rw [hh] at hret <;>
  simp only [reduceCtorEq] at hret <;>
  rcases err with _ | e <;>
  (try cases b1) <;> (try cases b2) <;> (try cases b3) <;>
  simp [doCronTaskCtx, handlerHead, handlerTail, closureDefer, dispatchDefer,
    putTaskContext, incRunCounter, incErrorCounter, hookSet, World.emit,
    World.logDebug, startCronTask, newEvents, callHandler, *]

/-- C8 amended, at a task with `Timeout = 1` and a handler that returns nil: the
error counter keeps its value 0. -/
theorem C8_timeout_first_accounting_witness :
    (startedWorld okHandler 1).task.Timeout > 0 ∧
    (doCronTaskCtx starMatch (startedWorld okHandler 1)
        (getTaskContext (startedWorld okHandler 1).task) 5
        Race.timeoutFirst).task.counters.ErrorCounter
      = 0 + (if (none : Option GoError).isSome then 1 else 0) :=
  ⟨by decide,
   (C8_timeout_first_accounting starMatch (startedWorld okHandler 1)
      (getTaskContext (startedWorld okHandler 1).task) 5 none (by decide) rfl
      ⟨rfl, rfl, rfl, rfl, rfl, rfl⟩ rfl).2.2.1⟩

/-! ## Reset: what a successful call installs -/

/-- C9: after `Reset(conf)` returned nil, `IsRun`, `DueTime` and `RawExpress` of the
task are those of `conf`; `TaskData` is that of `conf` when it is non-nil and is
otherwise what it was; the handler is that of `conf` when it is non-nil and is
otherwise what it was; and the task identifier is what it was, whatever
`conf.TaskID` is. -/
theorem C9_reset_success_installs_conf (parseExpress : String → ExpressType → S)
    (w : World S D) (conf : TaskConfig D)
    (h : (Reset parseExpress w conf).2 = none) :
    (Reset parseExpress w conf).1.task.IsRun = conf.IsRun ∧
    (Reset parseExpress w conf).1.task.DueTime = conf.DueTime ∧
    (Reset parseExpress w conf).1.task.RawExpress = conf.Express ∧
    (Reset parseExpress w conf).1.task.TaskData
      = (match conf.TaskData with
         | some d => some d
         | none => w.task.TaskData) ∧
    (Reset parseExpress w conf).1.task.handler
      = (match conf.Handler with
         | some f => some f
         | none => w.task.handler) ∧
    (Reset parseExpress w conf).1.task.taskID = w.task.taskID := by
  obtain ⟨h1, h2⟩ := (Reset_nil_iff parseExpress w conf).mp h
  rw [Reset_accepted parseExpress w conf h1 h2]
  have hs : settingsOf
      (Start (reloadConf parseExpress (stringsSplit conf.Express) conf (Stop w))).task
      = settingsOf (reloadConf parseExpress (stringsSplit conf.Express) conf (Stop w)).task :=
    settingsOf_Start _
  have hIsRun := congrArg CronTask.IsRun hs
  have hDue := congrArg CronTask.DueTime hs
  have hRaw := congrArg CronTask.RawExpress hs
  have hData := congrArg CronTask.TaskData hs
  have hHandler := congrArg CronTask.handler hs
  have hID := congrArg CronTask.taskID hs
  simp only [settingsOf] at hIsRun hDue hRaw hData hHandler hID
  simp only [World.logDebug, World.emit]
  rw [hIsRun, hDue, hRaw, hData, hHandler, hID]
  have hstop := Stop_task w
  unfold reloadConf
  rcases hd : conf.TaskData with _ | d <;> rcases hf : conf.Handler with _ | f <;>
    by_cases hc : w.task.TaskType = TaskType.Cron <;>
    simp [setPredicates, hstop, hc]

/-- C9, at a configuration with another identifier, no handler and no task data: the
task keeps its identifier `t1` and takes the expression and the due time of the
configuration. -/
theorem C9_reset_success_installs_conf_witness :
    (Reset keepParse (World.ofTask (starTask okHandler)) (confOf "1 2 3 4 5 6")).2 = none ∧
    (Reset keepParse (World.ofTask (starTask okHandler)) (confOf "1 2 3 4 5 6")).1.task.taskID
      = "t1" ∧
    (Reset keepParse (World.ofTask (starTask okHandler)) (confOf "1 2 3 4 5 6")).1.task.DueTime
      = 7 :=
  ⟨by decide,
   (C9_reset_success_installs_conf keepParse (World.ofTask (starTask okHandler))
      (confOf "1 2 3 4 5 6") (by decide)).2.2.2.2.2,
   (C9_reset_success_installs_conf keepParse (World.ofTask (starTask okHandler))
      (confOf "1 2 3 4 5 6") (by decide)).2.1⟩

/-- C10: in every world reachable from a task that `NewCronTask` returned, by
`Reset` (accepted or rejected) and also by `Start`, `Stop`, attaching the service and
ticks, `RawExpress` splits into six parts and the six predicates are the parse of
these parts: part 0 as second, part 1 as minute, part 2 as hour, part 3 as day,
part 4 as month, part 5 as weekday. No reachable world holds a predicate parsed from
another expression than the current `RawExpress`. -/
theorem C10_predicates_follow_raw_express (parseExpress : String → ExpressType → S)
    (IsMatch : S → Time → Bool) (w : World S D)
    (h : Reachable parseExpress IsMatch w) :
    PredicatesFromRawExpress parseExpress w.task :=
  (Reachable_predicates parseExpress IsMatch w h).2

/-- C10, at the world after creating a task with `* * * * * *` and resetting it to
`1 2 3 4 5 6`: the second predicate is the parse of `1`, the weekday predicate that
of `6`. -/
theorem C10_predicates_follow_raw_express_witness :
    Reachable keepParse starMatch
      (Reset keepParse (World.ofTask (starTask okHandler)) (confOf "1 2 3 4 5 6")).1 ∧
    PredicatesFromRawExpress keepParse
      (Reset keepParse (World.ofTask (starTask okHandler)) (confOf "1 2 3 4 5 6")).1.task ∧
    (Reset keepParse (World.ofTask (starTask okHandler))
      (confOf "1 2 3 4 5 6")).1.task.time_Second = ("1", ExpressType.Second) ∧
    (Reset keepParse (World.ofTask (starTask okHandler))
      (confOf "1 2 3 4 5 6")).1.task.time_WeekDay = ("6", ExpressType.WeekDay) :=
  ⟨Reachable.reset _ _ (Reachable.create "t1" true "* * * * * *" (some okHandler) none _
      (starTask_created okHandler)),
   C10_predicates_follow_raw_express keepParse starMatch _
    (Reachable.reset _ _ (Reachable.create "t1" true "* * * * * *" (some okHandler) none _
      (starTask_created okHandler))),
   by decide, by decide⟩

/-! ## RunOnce and NewCronTask -/

/-- C11: in any state of the task and with no look at the six predicates, `RunOnce`
calls the handler exactly once, with a context just obtained from `getTaskContext`;
what the handler returns is what `RunOnce` returns (a nil error for a nil error); no
hook is called, and the task, so its run counter, its error counter and its `State`,
is what it was, as are the tickers and the loop goroutines. -/
theorem C11_run_once_calls_handler_only (w : World S D) :
    newEvents w (RunOnce w).1 = [Event.handlerCall] ∧
    (RunOnce w).1.ctx = some (getTaskContext w.task) ∧
    (getTaskContext w.task).IsEnd = false ∧
    (getTaskContext w.task).Error = none ∧
    (RunOnce w).2 = callHandler w.task (getTaskContext w.task) ∧
    (∀ (h : TaskHandle D) (err : Option GoError), w.task.handler = some h →
      h (getTaskContext w.task) = HandlerResult.returned err →
      (RunOnce w).2 = HandlerResult.returned err) ∧
    (RunOnce w).1.task = w.task ∧
    (RunOnce w).1.task.counters.RunCounter = w.task.counters.RunCounter ∧
    (RunOnce w).1.task.counters.ErrorCounter = w.task.counters.ErrorCounter ∧
    (RunOnce w).1.task.State = w.task.State ∧
    (RunOnce w).1.tickers = w.tickers ∧
    (RunOnce w).1.loops = w.loops := by
  refine ⟨?_, rfl, rfl, rfl, rfl, ?_, rfl, rfl, rfl, rfl, rfl, rfl⟩
  · simp [RunOnce, newEvents]
  · intro h err hh hr
    simp [RunOnce, callHandler, hh, hr]

/-- C11, at a stopped task whose handler returns the error `boom`: `RunOnce` returns
`boom` and the counters are still 0. -/
theorem C11_run_once_calls_handler_only_witness :
    (Stop (World.ofTask (starTask errHandler))).task.State = TaskState.Stop ∧
    (RunOnce (Stop (World.ofTask (starTask errHandler)))).2
      = HandlerResult.returned (some "boom") ∧
    (RunOnce (Stop (World.ofTask (starTask errHandler)))).1.task.counters
      = { RunCounter := 0, ErrorCounter := 0 } :=
  ⟨by decide,
   (C11_run_once_calls_handler_only (Stop (World.ofTask (starTask errHandler)))).2.2.2.2.2.1
      errHandler (some "boom") rfl rfl,
   by decide⟩

/-- C12: for every expression `e` that is accepted (cut into six parts by the split
at the space), `NewCronTask(id, isRun, e, h, d)` returns a task and a nil error; the
task is in `State` `Init`, has no ticker and no loop goroutine (also when `isRun` is
true), and `GetConfig` reports `TaskID = id`, `IsRun = isRun`, `Express = e`,
`Handler = h`, `TaskData = d` and `Interval = 0`. -/
theorem C12_new_cron_task_is_init (parseExpress : String → ExpressType → S) (taskID : String)
    (isRun : Bool) (e : String) (handler : Option (TaskHandle D)) (taskData : Option D)
    (h6 : (stringsSplit e).length = 6) :
    ∃ t : CronTask S D,
      NewCronTask parseExpress taskID isRun e handler taskData = (some t, none) ∧
      t.State = TaskState.Init ∧
      t.TimeTicker = none ∧
      (World.ofTask t).loops = [] ∧
      activeLoops (World.ofTask t) = 0 ∧
      (World.ofTask t).trace = [] ∧
      (GetConfig t).TaskID = taskID ∧
      (GetConfig t).IsRun = isRun ∧
      (GetConfig t).Express = e ∧
      (GetConfig t).Handler = handler ∧
      (GetConfig t).TaskData = taskData ∧
      (GetConfig t).Interval = 0 := by
  unfold NewCronTask
  simp only [h6, ne_eq, not_true_eq_false, if_false]
  exact ⟨_, rfl, rfl, rfl, rfl, rfl, rfl, rfl, rfl, rfl, rfl, rfl, rfl⟩

/-- C12, at `NewCronTask("t1", true, "* * * * * *", okHandler, nil)`. -/
theorem C12_new_cron_task_is_init_witness :
    (stringsSplit "* * * * * *").length = 6 ∧
    ∃ t : CronTask (String × ExpressType) Unit,
      NewCronTask keepParse "t1" true "* * * * * *" (some okHandler) none = (some t, none) ∧
      t.State = TaskState.Init ∧ (GetConfig t).IsRun = true :=
  ⟨by decide,
   (C12_new_cron_task_is_init keepParse "t1" true "* * * * * *" (some okHandler)
      (none : Option Unit) (by decide)).elim
     (fun t ht => ⟨t, ht.1, ht.2.1, ht.2.2.2.2.2.2.2.1⟩)⟩

/-! ## A context that is already concluded -/

/-- C15: on a matched tick whose context has `IsEnd` true, for every `Timeout` and
either order of the two signals, the handler is not called, no error is stored in
the context, and the error counter keeps its value. (The run counter still goes up by
one.) -/
theorem C15_concluded_context_skips_handler (IsMatch : S → Time → Bool) (w : World S D)
    (taskCtx : TaskContext D) (now : Time) (race : Race)
    (hend : taskCtx.IsEnd = true)
    (hmatch : IsMatch w.task.time_Second now = true ∧ IsMatch w.task.time_Minute now = true ∧
       IsMatch w.task.time_Hour now = true ∧ IsMatch w.task.time_Day now = true ∧
       IsMatch w.task.time_Month now = true ∧ IsMatch w.task.time_WeekDay now = true) :
    Event.handlerCall ∉ newEvents w (doCronTaskCtx IsMatch w taskCtx now race) ∧
    (∀ e, Event.setError e ∉ newEvents w (doCronTaskCtx IsMatch w taskCtx now race)) ∧
    (doCronTaskCtx IsMatch w taskCtx now race).ctx.map (fun c => c.Error)
      = some taskCtx.Error ∧
    (doCronTaskCtx IsMatch w taskCtx now race).task.counters.ErrorCounter
      = w.task.counters.ErrorCounter ∧
    Event.ErrorCounterInc ∉ newEvents w (doCronTaskCtx IsMatch w taskCtx now race) ∧
    (doCronTaskCtx IsMatch w taskCtx now race).task.counters.RunCounter
      = w.task.counters.RunCounter + 1 ∧
    (doCronTaskCtx IsMatch w taskCtx now race).crashed = w.crashed := by
  have ha : allMatch IsMatch w.task now = true := by
    simp only [allMatch, Bool.and_eq_true]
    tauto
  clear hmatch
  have hc : taskCtx.TimeoutCancel = true ∨ taskCtx.TimeoutCancel = false := by
    cases taskCtx.TimeoutCancel <;> simp
  by_cases hT : 0 < w.task.Timeout <;>
  rcases hc with hc | hc <;>
  rcases hs : w.task.taskService with _ | ⟨b1, b2, b3⟩ <;>
  cases race <;>
  (try cases b1) <;> (try cases b2) <;> (try cases b3) <;>
  simp [doCronTaskCtx, handlerHead, handlerTail, closureDefer, dispatchDefer,
    putTaskContext, incRunCounter, incErrorCounter, hookSet, World.emit,
    World.logDebug, newEvents, *]

/-- C15, at a started task with all hooks set and a context marked concluded: no
call of the handler among the effects of the tick. -/
theorem C15_concluded_context_skips_handler_witness :
    ({ getTaskContext (startedWorld errHandler 0).task with IsEnd := true }
      : TaskContext Unit).IsEnd = true ∧
    Event.handlerCall ∉ newEvents (startedWorld errHandler 0)
      (doCronTaskCtx starMatch (startedWorld errHandler 0)
        { getTaskContext (startedWorld errHandler 0).task with IsEnd := true } 5
        Race.doneFirst) :=
  ⟨rfl,
   (C15_concluded_context_skips_handler starMatch (startedWorld errHandler 0)
      { getTaskContext (startedWorld errHandler 0).task with IsEnd := true } 5
      Race.doneFirst rfl ⟨rfl, rfl, rfl, rfl, rfl, rfl⟩).1⟩

/-! ## NewCronTask and Reset accept the same expressions -/

/-- C16: for every expression `e`, `NewCronTask` returns a nil error exactly when
`Reset` does for a configuration with `Express = e`, and that is exactly when `e`
holds five space characters (the split at the space gives six parts). When `e` is
accepted, the task `NewCronTask` returns and a cron task after `Reset` hold the same
six predicates: part 0 parsed as second, part 1 as minute, part 2 as hour, part 3 as
day, part 4 as month, part 5 as weekday. -/
theorem C16_same_acceptance_same_predicates (parseExpress : String → ExpressType → S)
    (e : String) (taskID : String) (isRun : Bool) (handler : Option (TaskHandle D))
    (taskData : Option D) (w : World S D) (conf : TaskConfig D) (he : conf.Express = e) :
    ((NewCronTask parseExpress taskID isRun e handler taskData).2 = none ↔
      (Reset parseExpress w conf).2 = none) ∧
    ((NewCronTask parseExpress taskID isRun e handler taskData).2 = none ↔
      e.toList.count ' ' = 5) ∧
    ((NewCronTask parseExpress taskID isRun e handler taskData).2 = none ↔
      (stringsSplit e).length = 6) ∧
    ((NewCronTask parseExpress taskID isRun e handler taskData).2 = none →
      w.task.TaskType = TaskType.Cron →
      ∃ t : CronTask S D,
        NewCronTask parseExpress taskID isRun e handler taskData = (some t, none) ∧
        t.time_Second = parseExpress (field (stringsSplit e) 0) ExpressType.Second ∧
        t.time_Minute = parseExpress (field (stringsSplit e) 1) ExpressType.Minute ∧
        t.time_Hour = parseExpress (field (stringsSplit e) 2) ExpressType.Hour ∧
        t.time_Day = parseExpress (field (stringsSplit e) 3) ExpressType.Day ∧
        t.time_Month = parseExpress (field (stringsSplit e) 4) ExpressType.Month ∧
        t.time_WeekDay = parseExpress (field (stringsSplit e) 5) ExpressType.WeekDay ∧
        (Reset parseExpress w conf).1.task.time_Second = t.time_Second ∧
        (Reset parseExpress w conf).1.task.time_Minute = t.time_Minute ∧
        (Reset parseExpress w conf).1.task.time_Hour = t.time_Hour ∧
        (Reset parseExpress w conf).1.task.time_Day = t.time_Day ∧
        (Reset parseExpress w conf).1.task.time_Month = t.time_Month ∧
        (Reset parseExpress w conf).1.task.time_WeekDay = t.time_WeekDay) := by
  subst he
  have hnew := NewCronTask_nil_iff parseExpress taskID isRun conf.Express handler taskData
  refine ⟨?_, ?_, hnew, ?_⟩
  · rw [hnew, Reset_nil_iff]
    constructor
    · intro h6
      exact ⟨ne_empty_of_six _ h6, h6⟩
    · intro h
      exact h.2
  · rw [hnew]
    exact stringsSplit_length_six conf.Express
  · intro hacc hc
    have h6 := hnew.mp hacc
    obtain ⟨hraw, hp⟩ := Reset_accepted_predicates parseExpress w conf hc h6
    unfold PredicatesFromRawExpress at hp
    rw [hraw] at hp
    obtain ⟨_, p0, p1, p2, p3, p4, p5⟩ := hp
    unfold NewCronTask
    simp only [h6, ne_eq, not_true_eq_false, if_false]
    exact ⟨_, rfl, rfl, rfl, rfl, rfl, rfl, rfl, p0, p1, p2, p3, p4, p5⟩

/-- C16, at `1 2 3 4 5 6`: accepted by both, and after `Reset` the minute predicate is
the parse of `2` as a minute. -/
theorem C16_same_acceptance_same_predicates_witness :
    (NewCronTask keepParse "t1" true "1 2 3 4 5 6" (some okHandler) (none : Option Unit)).2
      = none ∧
    (Reset keepParse (World.ofTask (starTask okHandler)) (confOf "1 2 3 4 5 6")).2 = none ∧
    ("1 2 3 4 5 6" : String).toList.count ' ' = 5 :=
  ⟨by decide,
   (C16_same_acceptance_same_predicates keepParse "1 2 3 4 5 6" "t1" true (some okHandler)
      (none : Option Unit) (World.ofTask (starTask okHandler)) (confOf "1 2 3 4 5 6")
      rfl).1.mp (by decide),
   (C16_same_acceptance_same_predicates keepParse "1 2 3 4 5 6" "t1" true (some okHandler)
      (none : Option Unit) (World.ofTask (starTask okHandler)) (confOf "1 2 3 4 5 6")
      rfl).2.1.mp (by decide)⟩

/-! ## Reset with the task's own configuration -/

/-- C17: for a task `t` that `NewCronTask` returned, `Reset(t.GetConfig())` returns a
nil error; `GetConfig` after the call is `GetConfig` before it (`TaskID`, `IsRun`,
`Handler`, `DueTime`, `Express`, `TaskData`, and also `TaskType` and `Interval`), and
each of the six predicates is what it was before the call. -/
theorem C17_reset_own_config_changes_nothing (parseExpress : String → ExpressType → S)
    (taskID : String) (isRun : Bool) (e : String) (handler : Option (TaskHandle D))
    (taskData : Option D) (t : CronTask S D)
    (h : NewCronTask parseExpress taskID isRun e handler taskData = (some t, none)) :
    (Reset parseExpress (World.ofTask t) (GetConfig t)).2 = none ∧
    GetConfig (Reset parseExpress (World.ofTask t) (GetConfig t)).1.task = GetConfig t ∧
    (GetConfig (Reset parseExpress (World.ofTask t) (GetConfig t)).1.task).TaskID = taskID ∧
    (GetConfig (Reset parseExpress (World.ofTask t) (GetConfig t)).1.task).IsRun = isRun ∧
    (GetConfig (Reset parseExpress (World.ofTask t) (GetConfig t)).1.task).Handler = handler ∧
    (GetConfig (Reset parseExpress (World.ofTask t) (GetConfig t)).1.task).DueTime = t.DueTime ∧
    (GetConfig (Reset parseExpress (World.ofTask t) (GetConfig t)).1.task).Express = e ∧
    (GetConfig (Reset parseExpress (World.ofTask t) (GetConfig t)).1.task).TaskData
      = taskData ∧
    (Reset parseExpress (World.ofTask t) (GetConfig t)).1.task.time_Second = t.time_Second ∧
    (Reset parseExpress (World.ofTask t) (GetConfig t)).1.task.time_Minute = t.time_Minute ∧
    (Reset parseExpress (World.ofTask t) (GetConfig t)).1.task.time_Hour = t.time_Hour ∧
    (Reset parseExpress (World.ofTask t) (GetConfig t)).1.task.time_Day = t.time_Day ∧
    (Reset parseExpress (World.ofTask t) (GetConfig t)).1.task.time_Month = t.time_Month ∧
    (Reset parseExpress (World.ofTask t) (GetConfig t)).1.task.time_WeekDay
      = t.time_WeekDay := by
  obtain ⟨hc, hp⟩ := NewCronTask_predicates parseExpress taskID isRun e handler taskData t h
  have h6 : (stringsSplit (GetConfig t).Express).length = 6 := hp.1
  have hcfg : GetConfig t
      = { TaskID := taskID, TaskType := TaskType.Cron, IsRun := isRun, Handler := handler,
          DueTime := t.DueTime, Interval := 0, Express := e, TaskData := taskData } := by
    unfold NewCronTask at h
    by_cases h6e : (stringsSplit e).length = 6
    · simp only [h6e, ne_eq, not_true_eq_false, if_false, Prod.mk.injEq, Option.some.injEq,
        and_true] at h
      subst h
      rfl
    · simp [h6e] at h
  have hstopc : (Stop (World.ofTask t)).task.TaskType = TaskType.Cron := by
    rw [Stop_task]
    exact hc
  have hstopp : PredicatesFromRawExpress parseExpress (Stop (World.ofTask t)).task :=
    (predicates_of_settingsOf parseExpress _ _ (settingsOf_Stop (World.ofTask t)) ⟨hc, hp⟩).2
  have hsame : GetConfig (Stop (World.ofTask t)).task = GetConfig t := by
    rw [Stop_task]
    rfl
  have hraw : (Stop (World.ofTask t)).task.RawExpress = (GetConfig t).Express := by
    rw [Stop_task]
    rfl
  have hreload := reloadConf_GetConfig parseExpress (Stop (World.ofTask t)) hstopc hstopp
  rw [hsame, hraw] at hreload
  have hset : settingsOf (Reset parseExpress (World.ofTask t) (GetConfig t)).1.task
      = settingsOf t := by
    rw [Reset_accepted parseExpress (World.ofTask t) (GetConfig t) (ne_empty_of_six _ h6) h6]
    have hs := settingsOf_Start
      (reloadConf parseExpress (stringsSplit (GetConfig t).Express) (GetConfig t)
        (Stop (World.ofTask t)))
    rw [hreload] at hs
    exact hs.trans (settingsOf_Stop (World.ofTask t))
  have hget : GetConfig (Reset parseExpress (World.ofTask t) (GetConfig t)).1.task
      = GetConfig t := by
    have hg := congrArg (fun u => GetConfig u) hset
    exact hg
  have p0 := congrArg CronTask.time_Second hset
  have p1 := congrArg CronTask.time_Minute hset
  have p2 := congrArg CronTask.time_Hour hset
  have p3 := congrArg CronTask.time_Day hset
  have p4 := congrArg CronTask.time_Month hset
  have p5 := congrArg CronTask.time_WeekDay hset
  refine ⟨(Reset_nil_iff parseExpress _ _).mpr ⟨ne_empty_of_six _ h6, h6⟩, hget, ?_, ?_, ?_,
    ?_, ?_, ?_, p0, p1, p2, p3, p4, p5⟩ <;>
    rw [hget, hcfg]

/-- C17, at the task `NewCronTask("t1", true, "* * * * * *", okHandler, nil)`
returns. -/
theorem C17_reset_own_config_changes_nothing_witness :
    NewCronTask keepParse "t1" true "* * * * * *" (some okHandler) (none : Option Unit)
      = (some (starTask okHandler), none) ∧
    (Reset keepParse (World.ofTask (starTask okHandler)) (GetConfig (starTask okHandler))).2
      = none ∧
    GetConfig (Reset keepParse (World.ofTask (starTask okHandler))
        (GetConfig (starTask okHandler))).1.task
      = GetConfig (starTask okHandler) :=
  ⟨starTask_created okHandler,
   (C17_reset_own_config_changes_nothing keepParse "t1" true "* * * * * *" (some okHandler)
      none (starTask okHandler) (starTask_created okHandler)).1,
   (C17_reset_own_config_changes_nothing keepParse "t1" true "* * * * * *" (some okHandler)
      none (starTask okHandler) (starTask_created okHandler)).2.1⟩

/-! ## The instants of the ticks -/

/-- The `Sleep` of line 143 does end on the whole second after the launch. -/
theorem sleepEnd_launch (t0 : Time) :
    sleepEnd t0 (afterTime t0 t0) = nowSecond t0 + oneSecond := by
  simp only [sleepEnd, afterTime, nowSecond, oneSecond]
  change @Eq Nat _ _
  omega

/-- The ticks of a loop launched at `t0` come `1, 2, 3, ...` periods after `t0`: the
ticker was created before the `Sleep`, which is over before its first tick. -/
theorem tickTime_eq (t0 : Time) (k : Nat) :
    tickTime t0 k = t0 + (k + 1) * oneSecond := by
  simp only [tickTime, tickHandled, tickerFire, DefaultPeriod, sleepEnd, afterTime, nowSecond,
    oneSecond]
  change @Eq Nat _ _
  omega

/-- C13 fails for a launch that is not on a whole second: for a loop launched at
`t0 = 1.5 s` the `Sleep` returns at `2.0 s`, the first whole second after `t0`, but
the first tick is handled at `2.5 s` and the second at `3.5 s`, half a second off
the whole seconds. For every launch instant the k-th tick is handled `k + 1` seconds
after the launch, so its offset within the second is that of the launch. -/
theorem C13_ticks_keep_the_offset_of_the_launch :
    sleepEnd 1500000000 (afterTime 1500000000 1500000000) = 2000000000 ∧
    tickTime 1500000000 0 = 2500000000 ∧
    tickTime 1500000000 1 = 3500000000 ∧
    tickTime 1500000000 0 % oneSecond = 500000000 ∧
    (∀ (t0 : Time) (k : Nat), tickTime t0 k = t0 + (k + 1) * oneSecond) ∧
    (∀ (t0 : Time) (k : Nat), tickTime t0 k % oneSecond = t0 % oneSecond) := by
  refine ⟨by decide, by decide, by decide, by decide, tickTime_eq, ?_⟩
  intro t0 k
  rw [tickTime_eq]
  simp only [oneSecond]
  change @Eq Nat _ _
  omega

/-! ## Reset while a tick is in flight -/

/-- The six assignments of `Reset`, done one by one with no read in between, are the
assignments of `setPredicates`, and leave the reads of the tick untouched. -/
theorem Overlap_run_writes (parseExpress : String → ExpressType → S)
    (IsMatch : S → Time → Bool) (l : List String) (now : Time) (t : CronTask S D) :
    Overlap.run parseExpress IsMatch l now (Overlap.begin t)
      (List.replicate 6 Step.resetWrite)
      = { task := setPredicates parseExpress l t, toWrite := [], toRead := predicateOrder,
          seen := [], matched := true } := by
  simp [Overlap.run, Overlap.begin, Overlap.step, predicateOrder, List.replicate,
    CronTask.assign, setPredicates, partOf]

/-- Six reads with no assignment in between give the condition `allMatch` of the
task as it is then. -/
theorem Overlap_reads_from (parseExpress : String → ExpressType → S)
    (IsMatch : S → Time → Bool) (l : List String) (now : Time) (o : Overlap S D)
    (h1 : o.toRead = predicateOrder) (h2 : o.matched = true) :
    (Overlap.run parseExpress IsMatch l now o (List.replicate 6 Step.tickRead)).fires
      = allMatch IsMatch o.task now := by
  obtain ⟨t, tw, tr, seen, m⟩ := o
  simp only at h1 h2
  subst h1 h2
  cases h1 : IsMatch t.time_WeekDay now <;> cases h2 : IsMatch t.time_Month now <;>
  cases h3 : IsMatch t.time_Day now <;> cases h4 : IsMatch t.time_Hour now <;>
  cases h5 : IsMatch t.time_Minute now <;> cases h6 : IsMatch t.time_Second now <;>
  simp [Overlap.run, Overlap.step, Overlap.fires, predicateOrder,
    List.replicate, allMatch, CronTask.predicate, *]

/-- The six reads of a tick, done with no assignment in between, give the condition
`allMatch` of the task. -/
theorem Overlap_run_reads (parseExpress : String → ExpressType → S)
    (IsMatch : S → Time → Bool) (l : List String) (now : Time) (t : CronTask S D) :
    (Overlap.run parseExpress IsMatch l now (Overlap.begin t)
      (List.replicate 6 Step.tickRead)).fires = allMatch IsMatch t now :=
  Overlap_reads_from parseExpress IsMatch l now (Overlap.begin t) rfl rfl

/-- A tick that starts to read after the last assignment of `Reset` evaluates the
condition on the new predicates. -/
theorem Overlap_run_writes_then_reads (parseExpress : String → ExpressType → S)
    (IsMatch : S → Time → Bool) (l : List String) (now : Time) (t : CronTask S D) :
    (Overlap.run parseExpress IsMatch l now (Overlap.begin t)
      (List.replicate 6 Step.resetWrite ++ List.replicate 6 Step.tickRead)).fires
      = allMatch IsMatch (setPredicates parseExpress l t) now := by
  have hw := Overlap_run_writes parseExpress IsMatch l now t
  unfold Overlap.run at hw ⊢
  rw [List.foldl_append, hw]
  exact Overlap_reads_from parseExpress IsMatch l now _ rfl rfl

/-- C14 fails for a tick in flight: a task created with `x b c d e f` is reset to
`1 2 3 4 5 x` while a dispatched tick evaluates the condition of lines 179-184. The
tick reads the weekday predicate, then `Reset` assigns all six predicates, then the
tick reads the other five. It has read the weekday predicate of the old expression
and the other five of the new one, and it goes on to the handler although neither
the old nor the new expression matches the instant. -/
theorem C14_tick_in_flight_reads_old_and_new :
    NewCronTask keepParse "t1" true "x b c d e f" (some okHandler) (none : Option Unit)
      = (some (taskOf "x b c d e f" okHandler), none) ∧
    allMatch exceptX (taskOf "x b c d e f" okHandler) 5 = false ∧
    allMatch exceptX
      (setPredicates keepParse (stringsSplit "1 2 3 4 5 x") (taskOf "x b c d e f" okHandler)) 5
      = false ∧
    (Overlap.run keepParse exceptX (stringsSplit "1 2 3 4 5 x") 5
        (Overlap.begin (taskOf "x b c d e f" okHandler)) readWriteRead).seen
      = [("f", ExpressType.WeekDay), ("5", ExpressType.Month), ("4", ExpressType.Day),
         ("3", ExpressType.Hour), ("2", ExpressType.Minute), ("1", ExpressType.Second)] ∧
    (Overlap.run keepParse exceptX (stringsSplit "1 2 3 4 5 x") 5
        (Overlap.begin (taskOf "x b c d e f" okHandler)) readWriteRead).fires = true ∧
    (Overlap.run keepParse exceptX (stringsSplit "1 2 3 4 5 x") 5
        (Overlap.begin (taskOf "x b c d e f" okHandler)) readWriteRead).toWrite = [] ∧
    (Overlap.run keepParse exceptX (stringsSplit "1 2 3 4 5 x") 5
        (Overlap.begin (taskOf "x b c d e f" okHandler)) readWriteRead).task
      = setPredicates keepParse (stringsSplit "1 2 3 4 5 x")
          (taskOf "x b c d e f" okHandler) := by
  refine ⟨rfl, by decide, by decide, by decide, by decide, by decide, rfl⟩

end Crontask
